import Mathlib

/-!
Verification of the deterministic game-state engine of a hexagonal
settlement board game (a Catan-style rules core written in TypeScript).

The TypeScript sources are shallowly embedded below.  Conventions used
throughout the embedding:

* JavaScript numbers holding small integers are modelled as `Int`
  (or `Nat` where the source can only ever produce non-negative values,
  e.g. list indices, turn counters, timestamps).
* The string keys produced by `vertexKey` / `edgeKey` / `hexKey` are in
  bijection with the underlying coordinate triples, so maps keyed by such
  strings are modelled as association lists keyed by the structured ids
  themselves; insertion order is preserved, mirroring the iteration order
  of JavaScript `Map`s and of object literals.
* A JavaScript object-spread update `{...m, [k]: v}` keeps the position
  of an existing key and appends a fresh key; `recordSet` models exactly
  that.
* `Date.now()` is an input of the engine; every `apply` entry point takes
  an explicit `now : Nat` argument standing for the wall-clock reading.
* The 32-bit `mulberry32` generator is modelled exactly on bit patterns
  (`Nat` values `< 2^32`); `Math.floor(rng() * n)` equals
  `out * n / 2^32` in exact arithmetic for the small `n` used by the
  sources, because the double-precision intermediates are exact there.
-/

namespace FrontierHex

/-- Association-list lookup, mirroring `Map.get` / record indexing on the
string key of the structured id (first match; keys are unique by
construction in all states the engine builds). -/
def alookup {κ β : Type} [DecidableEq κ] : List (κ × β) → κ → Option β
  | [], _ => none
  | (k', v) :: rest, k => if k' = k then some v else alookup rest k

/-- Model of the spread update `{...m, [k]: v}`: an existing key keeps its
position and gets the new value, a fresh key is appended. -/
def recordSet {κ β : Type} [DecidableEq κ] (m : List (κ × β)) (k : κ) (v : β) :
    List (κ × β) :=
  if (alookup m k).isSome then
    m.map (fun p => if p.1 = k then (k, v) else p)
  else
    m ++ [(k, v)]

/-- Keys of an association list. -/
def akeys {κ β : Type} (m : List (κ × β)) : List κ := m.map Prod.fst

/-- De-duplication keeping the first occurrence, mirroring insertion into a
JavaScript `Map`/`Set` while iterating. -/
def dedupFirstAux {α : Type} [DecidableEq α] : List α → List α → List α
  | [], _ => []
  | x :: xs, seen =>
    if x ∈ seen then dedupFirstAux xs seen else x :: dedupFirstAux xs (x :: seen)

def dedupFirst {α : Type} [DecidableEq α] (l : List α) : List α := dedupFirstAux l []

-- ======================================================================
-- Coordinates and ids (src/engine/types.ts)
-- ======================================================================

structure AxialCoord where
  q : Int
  r : Int
deriving DecidableEq, Repr

/-- Vertex direction: north or south of the owning hex. -/
inductive VDir | N | S
deriving DecidableEq, Repr

structure VertexId where
  q : Int
  r : Int
  d : VDir
deriving DecidableEq, Repr

/-- Edge direction: northeast, east or southeast of the owning hex. -/
inductive EDir | NE | E | SE
deriving DecidableEq, Repr

structure EdgeId where
  q : Int
  r : Int
  d : EDir
deriving DecidableEq, Repr

-- ======================================================================
-- Board topology (src/engine/board.ts)
-- ======================================================================

/-- Hex coordinates of the radius-2 board: `q, r ∈ [-2, 2]` with
`|q + r| ≤ 2`, iterated q-major exactly as the source loops. -/
def generateBoardHexes : List AxialCoord :=
  ((List.range 5).map (fun i => (i : Int) - 2)).flatMap (fun q =>
    ((List.range 5).map (fun i => (i : Int) - 2)).filterMap (fun r =>
      if (q + r).natAbs ≤ 2 then some ⟨q, r⟩ else none))

/-- The six canonical vertices of a hex, clockwise from the top. -/
def hexVertices (hex : AxialCoord) : List VertexId :=
  [ ⟨hex.q, hex.r, VDir.N⟩,
    ⟨hex.q + 1, hex.r - 1, VDir.S⟩,
    ⟨hex.q, hex.r + 1, VDir.N⟩,
    ⟨hex.q, hex.r, VDir.S⟩,
    ⟨hex.q - 1, hex.r + 1, VDir.N⟩,
    ⟨hex.q, hex.r - 1, VDir.S⟩ ]

/-- The six canonical edges of a hex. -/
def hexEdges (hex : AxialCoord) : List EdgeId :=
  [ ⟨hex.q, hex.r, EDir.NE⟩,
    ⟨hex.q, hex.r, EDir.E⟩,
    ⟨hex.q, hex.r, EDir.SE⟩,
    ⟨hex.q - 1, hex.r + 1, EDir.NE⟩,
    ⟨hex.q - 1, hex.r, EDir.E⟩,
    ⟨hex.q, hex.r - 1, EDir.SE⟩ ]

/-- The two endpoint vertices of an edge. -/
def edgeEndpoints (e : EdgeId) : VertexId × VertexId :=
  match e.d with
  | EDir.NE => (⟨e.q, e.r, VDir.N⟩, ⟨e.q + 1, e.r - 1, VDir.S⟩)
  | EDir.E => (⟨e.q + 1, e.r - 1, VDir.S⟩, ⟨e.q, e.r + 1, VDir.N⟩)
  | EDir.SE => (⟨e.q, e.r + 1, VDir.N⟩, ⟨e.q, e.r, VDir.S⟩)

/-- The three vertices adjacent to a vertex (before restricting to the
board). -/
def vertexAdjacentVertices (v : VertexId) : List VertexId :=
  match v.d with
  | VDir.N =>
    [⟨v.q + 1, v.r - 1, VDir.S⟩, ⟨v.q, v.r - 1, VDir.S⟩, ⟨v.q + 1, v.r - 2, VDir.S⟩]
  | VDir.S =>
    [⟨v.q, v.r + 1, VDir.N⟩, ⟨v.q - 1, v.r + 1, VDir.N⟩, ⟨v.q - 1, v.r + 2, VDir.N⟩]

/-- The three edges touching a vertex (before restricting to the board). -/
def vertexAdjacentEdges (v : VertexId) : List EdgeId :=
  match v.d with
  | VDir.N =>
    [⟨v.q, v.r, EDir.NE⟩, ⟨v.q, v.r - 1, EDir.SE⟩, ⟨v.q, v.r - 1, EDir.E⟩]
  | VDir.S =>
    [⟨v.q, v.r, EDir.SE⟩, ⟨v.q - 1, v.r + 1, EDir.NE⟩, ⟨v.q - 1, v.r + 1, EDir.E⟩]

/-- The hexes sharing a vertex, restricted to those on the board. -/
def vertexAdjacentHexes (v : VertexId) (boardHexes : List AxialCoord) :
    List AxialCoord :=
  let candidates : List AxialCoord :=
    match v.d with
    | VDir.N => [⟨v.q, v.r⟩, ⟨v.q, v.r - 1⟩, ⟨v.q + 1, v.r - 1⟩]
    | VDir.S => [⟨v.q, v.r⟩, ⟨v.q - 1, v.r + 1⟩, ⟨v.q, v.r + 1⟩]
  candidates.filter (· ∈ boardHexes)

structure BoardGraph where
  hexes : List AxialCoord
  vertices : List VertexId
  edges : List EdgeId
  vertexToHexes : List (VertexId × List AxialCoord)
  vertexToEdges : List (VertexId × List EdgeId)
  vertexToVertices : List (VertexId × List VertexId)
  edgeToVertices : List (EdgeId × (VertexId × VertexId))
  hexToVertices : List (AxialCoord × List VertexId)
deriving DecidableEq, Repr

/-- Build the complete board graph (`buildBoardGraph` of board.ts).
Vertices and edges are collected hex by hex in first-seen order, then the
adjacency maps are built in vertex/edge order, exactly as the source. -/
def buildBoardGraph : BoardGraph :=
  let hexes := generateBoardHexes
  let vertices := dedupFirst (hexes.flatMap hexVertices)
  let edges := dedupFirst (hexes.flatMap hexEdges)
  { hexes := hexes
    vertices := vertices
    edges := edges
    vertexToHexes := vertices.map (fun v => (v, vertexAdjacentHexes v hexes))
    vertexToEdges :=
      vertices.map (fun v => (v, (vertexAdjacentEdges v).filter (· ∈ edges)))
    vertexToVertices :=
      vertices.map (fun v => (v, (vertexAdjacentVertices v).filter (· ∈ vertices)))
    edgeToVertices := edges.map (fun e => (e, edgeEndpoints e))
    hexToVertices := hexes.map (fun h => (h, hexVertices h)) }

-- ======================================================================
-- Enums, bundles and game data (src/engine/types.ts)
-- ======================================================================

inductive ResourceType | wood | brick | sheep | wheat | ore
deriving DecidableEq, Repr

inductive TerrainType | forest | hills | pasture | fields | mountains | desert
deriving DecidableEq, Repr

inductive BuildingType | settlement | city
deriving DecidableEq, Repr

inductive DevelopmentCardType | knight | victoryPoint | roadBuilding | yearOfPlenty | monopoly
deriving DecidableEq, Repr

inductive PlayerColor | red | blue | white | orange
deriving DecidableEq, Repr

inductive PortType | generic | wood | brick | sheep | wheat | ore
deriving DecidableEq, Repr

inductive GamePhase
  | setupSettlement | setupRoad | preRoll | discard | moveRobber
  | stealResource | main | roadBuilding | gameOver
deriving DecidableEq, Repr

structure ResourceBundle where
  wood : Int
  brick : Int
  sheep : Int
  wheat : Int
  ore : Int
deriving DecidableEq, Repr

structure HexTile where
  coord : AxialCoord
  terrain : TerrainType
  numberToken : Option Nat
deriving DecidableEq, Repr

structure Port where
  type : PortType
  vertices : VertexId × VertexId
deriving DecidableEq, Repr

structure VertexBuilding where
  type : BuildingType
  playerIndex : Nat
deriving DecidableEq, Repr

structure EdgeRoad where
  playerIndex : Nat
deriving DecidableEq, Repr

structure PlayerState where
  id : String
  name : String
  color : PlayerColor
  resources : ResourceBundle
  developmentCards : List DevelopmentCardType
  newDevCards : List DevelopmentCardType
  playedKnights : Nat
  hasPlayedDevCardThisTurn : Bool
  settlements : Int
  cities : Int
  roads : Int
  ports : List PortType
deriving DecidableEq, Repr

inductive TradeResponse | accept | reject
deriving DecidableEq, Repr

structure TradeOffer where
  fromPlayer : Nat
  offering : ResourceBundle
  requesting : ResourceBundle
  responses : List (Nat × TradeResponse)
deriving DecidableEq, Repr

structure GameLogEntry where
  message : String
  timestamp : Nat
  playerIndex : Option Nat
deriving DecidableEq, Repr

structure GameState where
  gameId : String
  randomSeed : Nat
  hexTiles : List HexTile
  ports : List Port
  vertexBuildings : List (VertexId × VertexBuilding)
  edgeRoads : List (EdgeId × EdgeRoad)
  robberHex : AxialCoord
  players : List PlayerState
  currentPlayerIndex : Nat
  phase : GamePhase
  turnNumber : Nat
  setupRound : Nat
  lastDiceRoll : Option (Nat × Nat)
  devCardDeck : List DevelopmentCardType
  pendingTrade : Option TradeOffer
  playersNeedingToDiscard : List Nat
  robberStealTargets : Option (List Nat)
  longestRoadPlayer : Option Nat
  longestRoadLength : Nat
  largestArmyPlayer : Option Nat
  largestArmySize : Nat
  roadBuildingRoadsLeft : Int
  log : List GameLogEntry
  winner : Option Nat
  boardGraph : BoardGraph
deriving DecidableEq, Repr

-- ======================================================================
-- Actions and results (src/engine/types.ts)
-- ======================================================================

inductive GameAction
  | rollDice (playerIndex : Nat)
  | buildSettlement (playerIndex : Nat) (vertex : VertexId)
  | buildRoad (playerIndex : Nat) (edge : EdgeId)
  | buildCity (playerIndex : Nat) (vertex : VertexId)
  | buyDevCard (playerIndex : Nat)
  | playKnight (playerIndex : Nat)
  | playRoadBuilding (playerIndex : Nat)
  | playYearOfPlenty (playerIndex : Nat) (resource1 resource2 : ResourceType)
  | playMonopoly (playerIndex : Nat) (resource : ResourceType)
  | moveRobber (playerIndex : Nat) (hex : AxialCoord)
  | stealResource (playerIndex : Nat) (targetPlayerIndex : Nat)
  | discardResources (playerIndex : Nat) (resources : ResourceBundle)
  | tradeBank (playerIndex : Nat) (give receive : ResourceType)
  | tradeOffer (playerIndex : Nat) (offering requesting : ResourceBundle)
  | tradeAccept (playerIndex : Nat)
  | tradeReject (playerIndex : Nat)
  | tradeConfirm (playerIndex : Nat) (targetPlayerIndex : Nat)
  | tradeCancel (playerIndex : Nat)
  | endTurn (playerIndex : Nat)
  | setupPlaceSettlement (playerIndex : Nat) (vertex : VertexId)
  | setupPlaceRoad (playerIndex : Nat) (edge : EdgeId)
deriving DecidableEq, Repr

/-- Domain events emitted by the `apply` functions. -/
inductive GameEvent
  | diceRolled (playerIndex : Nat) (dice : Nat × Nat) (total : Nat)
  | mustDiscard (players : List Nat)
  | moveRobberEvt
  | resourcesProduced (playerIndex : Nat) (resources : ResourceBundle)
  | settlementBuilt (playerIndex : Nat) (vertex : VertexId)
  | roadBuilt (playerIndex : Nat) (edge : EdgeId)
  | cityBuilt (playerIndex : Nat) (vertex : VertexId)
  | devCardBought (playerIndex : Nat) (card : DevelopmentCardType)
  | knightPlayed (playerIndex : Nat)
  | roadBuildingPlayed (playerIndex : Nat)
  | yearOfPlentyPlayed (playerIndex : Nat) (resource1 resource2 : ResourceType)
  | monopolyPlayed (playerIndex : Nat) (resource : ResourceType) (totalStolen : Int)
  | robberMoved (hex : AxialCoord)
  | mustSteal (targets : List Nat)
  | resourceStolen (playerIndex targetPlayerIndex : Nat) (resource : ResourceType)
  | resourcesDiscarded (playerIndex : Nat) (resources : ResourceBundle)
  | allDiscarded
  | bankTraded (playerIndex : Nat) (give receive : ResourceType) (ratio : Nat)
  | tradeOffered (playerIndex : Nat) (offering requesting : ResourceBundle)
  | tradeAccepted (playerIndex : Nat)
  | tradeRejected (playerIndex : Nat)
  | tradeConfirmed (playerIndex targetPlayerIndex : Nat)
  | tradeCancelled (playerIndex : Nat)
  | turnEnded (playerIndex nextPlayer : Nat)
  | setupSettlementPlaced (playerIndex : Nat) (vertex : VertexId)
  | setupRoadPlaced (playerIndex : Nat) (edge : EdgeId)
deriving DecidableEq, Repr

structure ActionResult where
  valid : Bool
  error : Option String
  state : GameState
  events : List GameEvent
deriving Repr

-- ======================================================================
-- Constants (src/engine/constants.ts)
-- ======================================================================

def TERRAIN_DISTRIBUTION : List TerrainType :=
  [ TerrainType.forest, TerrainType.forest, TerrainType.forest, TerrainType.forest,
    TerrainType.fields, TerrainType.fields, TerrainType.fields, TerrainType.fields,
    TerrainType.pasture, TerrainType.pasture, TerrainType.pasture, TerrainType.pasture,
    TerrainType.hills, TerrainType.hills, TerrainType.hills,
    TerrainType.mountains, TerrainType.mountains, TerrainType.mountains,
    TerrainType.desert ]

def NUMBER_TOKENS : List Nat := [5, 2, 6, 3, 8, 10, 9, 12, 11, 4, 8, 10, 9, 4, 5, 6, 3, 11]

def SETTLEMENT_COST : ResourceBundle := ⟨1, 1, 1, 1, 0⟩

def CITY_COST : ResourceBundle := ⟨0, 0, 0, 2, 3⟩

def ROAD_COST : ResourceBundle := ⟨1, 1, 0, 0, 0⟩

def DEV_CARD_COST : ResourceBundle := ⟨0, 0, 1, 1, 1⟩

def EMPTY_RESOURCES : ResourceBundle := ⟨0, 0, 0, 0, 0⟩

def DEV_CARD_DECK_COMPOSITION : List DevelopmentCardType :=
  List.replicate 14 DevelopmentCardType.knight
    ++ List.replicate 5 DevelopmentCardType.victoryPoint
    ++ List.replicate 2 DevelopmentCardType.roadBuilding
    ++ List.replicate 2 DevelopmentCardType.yearOfPlenty
    ++ List.replicate 2 DevelopmentCardType.monopoly

def TERRAIN_TO_RESOURCE : TerrainType → Option ResourceType
  | TerrainType.forest => some ResourceType.wood
  | TerrainType.hills => some ResourceType.brick
  | TerrainType.pasture => some ResourceType.sheep
  | TerrainType.fields => some ResourceType.wheat
  | TerrainType.mountains => some ResourceType.ore
  | TerrainType.desert => none

def RESOURCE_TYPES : List ResourceType :=
  [ResourceType.wood, ResourceType.brick, ResourceType.sheep, ResourceType.wheat,
   ResourceType.ore]

def PORT_TYPES : List PortType :=
  [PortType.generic, PortType.generic, PortType.generic, PortType.generic,
   PortType.wood, PortType.brick, PortType.sheep, PortType.wheat, PortType.ore]

def INITIAL_SETTLEMENTS : Int := 5

def INITIAL_CITIES : Int := 4

def INITIAL_ROADS : Int := 15

def VICTORY_POINTS_TO_WIN : Nat := 10

def LARGEST_ARMY_MINIMUM : Nat := 3

def MAX_HAND_SIZE_BEFORE_DISCARD : Int := 7

-- ======================================================================
-- Seeded RNG and shuffling (src/engine/setup.ts)
-- ======================================================================

/-- Two to the thirty-second, the modulus of all 32-bit bit patterns. -/
def M32 : Nat := 4294967296

/-- One step of the mulberry32 generator, on 32-bit bit patterns.
Returns the new internal state and the 32-bit output numerator: the
JavaScript closure yields `out / 2^32 ∈ [0,1)`. -/
def rngNext (s : Nat) : Nat × Nat :=
  let s' := (s + 0x6d2b79f5) % M32
  let t1 := (Nat.xor s' (s' >>> 15) * (s' ||| 1)) % M32
  let t2 := Nat.xor ((t1 + (Nat.xor t1 (t1 >>> 7) * (t1 ||| 61)) % M32) % M32) t1
  (s', Nat.xor t2 (t2 >>> 14))

/-- Model of `Math.floor(rng() * n)`; exact for the small `n` used here. -/
def rngBelow (s : Nat) (n : Nat) : Nat × Nat :=
  let p := rngNext s
  (p.1, p.2 * n / M32)

/-- Swap two positions of a list (in-range in every use). -/
def listSwap {α : Type} (l : List α) (i j : Nat) : List α :=
  match l.get? i, l.get? j with
  | some a, some b => (l.set i b).set j a
  | _, _ => l

/-- Fisher–Yates loop: processes indices `i, i-1, …, 1`. -/
def shuffleGo {α : Type} (l : List α) (s : Nat) : Nat → List α × Nat
  | 0 => (l, s)
  | i + 1 =>
    let p := rngBelow s (i + 2)
    shuffleGo (listSwap l (i + 1) p.2) p.1 i

/-- Fisher–Yates shuffle with the threaded rng state. -/
def shuffle {α : Type} (l : List α) (s : Nat) : List α × Nat :=
  shuffleGo l s (l.length - 1)

-- ======================================================================
-- World generation (src/engine/setup.ts)
-- ======================================================================

/-- Assign terrains and the fixed token spiral to the hex coordinates;
the desert gets no token and hosts the robber. -/
def assignTiles : List (AxialCoord × TerrainType) → Nat → AxialCoord →
    List HexTile × AxialCoord
  | [], _, robber => ([], robber)
  | (c, t) :: rest, tokenIdx, robber =>
    if t = TerrainType.desert then
      let p := assignTiles rest tokenIdx c
      (⟨c, t, none⟩ :: p.1, p.2)
    else
      let p := assignTiles rest (tokenIdx + 1) robber
      (⟨c, t, some (NUMBER_TOKENS.getD tokenIdx 0)⟩ :: p.1, p.2)

/-- `generateBoard` of setup.ts: its own mulberry32 stream from the seed. -/
def generateBoard (seed : Nat) : List HexTile × AxialCoord :=
  let rng0 := seed % M32
  let terrains := (shuffle TERRAIN_DISTRIBUTION rng0).1
  assignTiles (generateBoardHexes.zip terrains) 0 ⟨0, 0⟩

/-- Integer data determining the polar angle of the midpoint of a
perimeter edge: with endpoint coordinates `(q1,r1)` and `(q2,r2)` the
source computes `x = √3·(midQ + midR/2)` and `y = 1.5·midR`, which equal
`√3·A/4` and `3·B/4` for `A = 2(q1+q2)+(r1+r2)` and `B = r1+r2`.  Angle
comparisons therefore reduce to exact integer sign tests (the `√3` factor
cancels), which the double-precision `Math.atan2` comparator decides
identically on this concrete, well-separated data. -/
def angleHalf (A B : Int) : Nat :=
  if B < 0 then 0
  else if B > 0 then 2
  else if A > 0 then 1
  else if A < 0 then 3
  else 1

/-- Strict angle comparison of two midpoints given their integer data. -/
def angleLt (a b : Int × Int) : Bool :=
  angleHalf a.1 a.2 < angleHalf b.1 b.2
    || (angleHalf a.1 a.2 = angleHalf b.1 b.2
        && (angleHalf a.1 a.2 = 0 || angleHalf a.1 a.2 = 2)
        && a.1 * b.2 - a.2 * b.1 > 0)

/-- Stable insertion (after all elements not strictly greater), modelling
the stable JavaScript `Array.prototype.sort`. -/
def insertStable {α : Type} (lt : α → α → Bool) (x : α) : List α → List α
  | [] => [x]
  | y :: ys => if lt x y then x :: y :: ys else y :: insertStable lt x ys

def stableSortBy {α : Type} (lt : α → α → Bool) (l : List α) : List α :=
  l.foldl (fun acc x => insertStable lt x acc) []

/-- Data carried for each perimeter edge while sorting by angle. -/
structure PerimeterEdge where
  v1 : VertexId
  v2 : VertexId
  A : Int
  B : Int
deriving DecidableEq, Repr

/-- `generatePorts` of setup.ts, on the threaded rng state. -/
def generatePorts (g : BoardGraph) (s : Nat) : List Port × Nat :=
  let perimeterVertexKeys : List VertexId :=
    g.vertexToHexes.filterMap (fun p => if p.2.length < 3 then some p.1 else none)
  let perimeterEdges : List (VertexId × VertexId) :=
    g.edgeToVertices.filterMap (fun p =>
      let v1 := p.2.1
      let v2 := p.2.2
      if v1 ∈ perimeterVertexKeys ∧ v2 ∈ perimeterVertexKeys then
        match alookup g.vertexToHexes v1, alookup g.vertexToHexes v2 with
        | some h1, some h2 =>
          if h1.length > 0 ∧ h2.length > 0 then
            let hexCount := (g.hexes.filter (fun h =>
              let hverts := (alookup g.hexToVertices h).getD []
              v1 ∈ hverts ∧ v2 ∈ hverts)).length
            if hexCount = 1 then some (v1, v2) else none
          else none
        | _, _ => none
      else none)
  let shuffled := shuffle PORT_TYPES s
  let portTypes := shuffled.1
  let edgesWithAngle : List PerimeterEdge :=
    perimeterEdges.map (fun p =>
      { v1 := p.1, v2 := p.2
        A := 2 * (p.1.q + p.2.q) + (p.1.r + p.2.r)
        B := p.1.r + p.2.r })
  let sorted := stableSortBy (fun a b => angleLt (a.A, a.B) (b.A, b.B)) edgesWithAngle
  let ports := (List.range 9).map (fun i =>
    let idx := i * perimeterEdges.length / 9 % sorted.length
    let pe := sorted.getD idx ⟨⟨0, 0, VDir.N⟩, ⟨0, 0, VDir.N⟩, 0, 0⟩
    { type := portTypes.getD i PortType.generic, vertices := (pe.v1, pe.v2) : Port })
  (ports, shuffled.2)

/-- `createDevCardDeck` of setup.ts. -/
def createDevCardDeck (s : Nat) : List DevelopmentCardType × Nat :=
  shuffle DEV_CARD_DECK_COMPOSITION s

/-- Snake-draft order `[0 … n-1, n-1 … 0]`. -/
def getSetupOrder (numPlayers : Nat) : List Nat :=
  List.range numPlayers ++ (List.range numPlayers).reverse

def PLAYER_COLORS : List PlayerColor :=
  [PlayerColor.red, PlayerColor.blue, PlayerColor.white, PlayerColor.orange]

def createPlayer (id name : String) (color : PlayerColor) : PlayerState :=
  { id := id, name := name, color := color
    resources := EMPTY_RESOURCES
    developmentCards := [], newDevCards := []
    playedKnights := 0, hasPlayedDevCardThisTurn := false
    settlements := INITIAL_SETTLEMENTS, cities := INITIAL_CITIES
    roads := INITIAL_ROADS, ports := [] }

structure GameConfig where
  gameId : String
  seed : Option Nat
  playerNames : List String
  playerIds : List String
deriving DecidableEq, Repr

/-- The player name at index `i`, with the falsy-fallback of the source
(`playerNames[i] || Player ${i+1}`). -/
def playerNameAt (names : List String) (i : Nat) : String :=
  match names.get? i with
  | some n => if n = "" then "Player " ++ toString (i + 1) else n
  | none => "Player " ++ toString (i + 1)

/-- `initializeGame` of setup.ts.  `entropy` stands for the value
`Math.floor(Math.random() * 2147483647)` drawn only when no seed is
configured. -/
def initializeGame (config : GameConfig) (entropy : Nat) : GameState :=
  let seed := config.seed.getD entropy
  let board := generateBoard seed
  let boardGraph := buildBoardGraph
  let s0 := seed % M32
  let portsRng := generatePorts boardGraph s0
  let deckRng := createDevCardDeck portsRng.2
  let namedIds : List (String × String) :=
    config.playerIds.enum.map (fun p => (p.2, playerNameAt config.playerNames p.1))
  let playerOrder := (shuffle namedIds deckRng.2).1
  let players := playerOrder.enum.map (fun p =>
    createPlayer p.2.1 p.2.2 (PLAYER_COLORS.getD p.1 PlayerColor.red))
  { gameId := config.gameId
    randomSeed := seed
    hexTiles := board.1
    ports := portsRng.1
    vertexBuildings := []
    edgeRoads := []
    robberHex := board.2
    players := players
    currentPlayerIndex := 0
    phase := GamePhase.setupSettlement
    turnNumber := 0
    setupRound := 1
    lastDiceRoll := none
    devCardDeck := deckRng.1
    pendingTrade := none
    playersNeedingToDiscard := []
    robberStealTargets := none
    longestRoadPlayer := none
    longestRoadLength := 0
    largestArmyPlayer := none
    largestArmySize := 0
    roadBuildingRoadsLeft := 0
    log := []
    winner := none
    boardGraph := boardGraph }

-- ======================================================================
-- Resource helpers (src/engine/validators/helpers.ts)
-- ======================================================================

def hasResources (hv need : ResourceBundle) : Bool :=
  hv.wood ≥ need.wood && hv.brick ≥ need.brick && hv.sheep ≥ need.sheep
    && hv.wheat ≥ need.wheat && hv.ore ≥ need.ore

def subtractResources (from_ cost : ResourceBundle) : ResourceBundle :=
  ⟨from_.wood - cost.wood, from_.brick - cost.brick, from_.sheep - cost.sheep,
   from_.wheat - cost.wheat, from_.ore - cost.ore⟩

def addResources (base add : ResourceBundle) : ResourceBundle :=
  ⟨base.wood + add.wood, base.brick + add.brick, base.sheep + add.sheep,
   base.wheat + add.wheat, base.ore + add.ore⟩

def totalResources (b : ResourceBundle) : Int :=
  b.wood + b.brick + b.sheep + b.wheat + b.ore

def getRes (b : ResourceBundle) : ResourceType → Int
  | ResourceType.wood => b.wood
  | ResourceType.brick => b.brick
  | ResourceType.sheep => b.sheep
  | ResourceType.wheat => b.wheat
  | ResourceType.ore => b.ore

def setRes (b : ResourceBundle) : ResourceType → Int → ResourceBundle
  | ResourceType.wood, n => { b with wood := n }
  | ResourceType.brick, n => { b with brick := n }
  | ResourceType.sheep, n => { b with sheep := n }
  | ResourceType.wheat, n => { b with wheat := n }
  | ResourceType.ore, n => { b with ore := n }

/-- `addResource` of helpers.ts: bump one resource by an amount. -/
def addResource (b : ResourceBundle) (r : ResourceType) (amt : Int) : ResourceBundle :=
  setRes b r (getRes b r + amt)

/-- Placeholder player used to model out-of-range index accesses that are
unreachable in every state the engine builds. -/
def dummyPlayer : PlayerState := createPlayer "" "" PlayerColor.red

def playerAt (s : GameState) (i : Nat) : PlayerState := s.players.getD i dummyPlayer

-- ======================================================================
-- Trade ratios (src/engine/trade-ratios.ts)
-- ======================================================================

def resourceToPort : ResourceType → PortType
  | ResourceType.wood => PortType.wood
  | ResourceType.brick => PortType.brick
  | ResourceType.sheep => PortType.sheep
  | ResourceType.wheat => PortType.wheat
  | ResourceType.ore => PortType.ore

def getTradeRatio (s : GameState) (playerIndex : Nat) (resource : ResourceType) : Nat :=
  let player := playerAt s playerIndex
  if resourceToPort resource ∈ player.ports then 2
  else if PortType.generic ∈ player.ports then 3
  else 4

-- ======================================================================
-- Production (src/engine/production.ts)
-- ======================================================================

def zeroBundle : ResourceBundle := ⟨0, 0, 0, 0, 0⟩

/-- Add an amount to one resource of the bundle at index `i` of the delta
list (`playerResourceDeltas[idx][res] += amount`); an out-of-range index
is a no-op here (the source would crash, and is never reached with an
out-of-range building owner). -/
def addAt (ds : List ResourceBundle) (i : Nat) (r : ResourceType) (amt : Int) :
    List ResourceBundle :=
  match ds.get? i with
  | some b => ds.set i (addResource b r amt)
  | none => ds

/-- Credit all buildings around one producing hex. -/
def creditHexVertices (s : GameState) (coord : AxialCoord) (r : ResourceType)
    (ds : List ResourceBundle) : List ResourceBundle :=
  match alookup s.boardGraph.hexToVertices coord with
  | none => ds
  | some verts =>
    verts.foldl (fun acc v =>
      match alookup s.vertexBuildings v with
      | none => acc
      | some b =>
        addAt acc b.playerIndex r (if b.type = BuildingType.city then 2 else 1)) ds

/-- One step of the hex loop of `produceResources`. -/
def produceHexStep (s : GameState) (diceTotal : Nat)
    (ds : List ResourceBundle) (tile : HexTile) : List ResourceBundle :=
  if tile.numberToken ≠ some diceTotal then ds
  else if tile.coord = s.robberHex then ds
  else
    match TERRAIN_TO_RESOURCE tile.terrain with
    | none => ds
    | some r => creditHexVertices s tile.coord r ds

/-- `produceResources` of production.ts. -/
def produceResources (s : GameState) (diceTotal : Nat) :
    GameState × List GameEvent :=
  let ds := s.hexTiles.foldl (produceHexStep s diceTotal)
    (s.players.map (fun _ => zeroBundle))
  let newPlayers := s.players.enum.map (fun p =>
    let delta := ds.getD p.1 zeroBundle
    if totalResources delta = 0 then p.2
    else { p.2 with resources := addResources p.2.resources delta })
  let events := s.players.enum.filterMap (fun p =>
    let delta := ds.getD p.1 zeroBundle
    if totalResources delta = 0 then none
    else some (GameEvent.resourcesProduced p.1 delta))
  ({ s with players := newPlayers }, events)

-- ======================================================================
-- Longest road (src/engine/longest-road.ts)
-- ======================================================================

/-- Depth-first search over the player's unvisited road edges from a
vertex; returns the maximum path length reachable.  `fuel` strictly
bounds the recursion depth: each call consumes an unvisited player edge,
so any fuel above the number of the player's edges is inexhaustible. -/
def lrDfs (g : BoardGraph) (buildings : List (VertexId × VertexBuilding))
    (playerEdges : List EdgeId) (playerIndex : Nat) :
    Nat → VertexId → List EdgeId → Nat → Nat
  | 0, _, _, len => len
  | fuel + 1, cur, visited, len =>
    let adjEdges := (alookup g.vertexToEdges cur).getD []
    adjEdges.foldl (fun best e =>
      if e ∉ playerEdges then best
      else if e ∈ visited then best
      else
        match alookup g.edgeToVertices e with
        | none => best
        | some (v1, v2) =>
          let otherV := if v1 = cur then v2 else v1
          match alookup buildings otherV with
          | some b =>
            if b.playerIndex ≠ playerIndex then max best (len + 1)
            else max best (lrDfs g buildings playerEdges playerIndex fuel otherV
              (e :: visited) (len + 1))
          | none => max best (lrDfs g buildings playerEdges playerIndex fuel otherV
              (e :: visited) (len + 1))) len

/-- `calculateLongestRoad` of longest-road.ts: DFS from both endpoints of
every owned edge, starting lengths at 1; an endpoint carrying an opponent
building contributes a length-1 path without being searched from. -/
def calculateLongestRoad (s : GameState) (playerIndex : Nat) : Nat :=
  let playerEdges := s.edgeRoads.filterMap (fun p =>
    if p.2.playerIndex = playerIndex then some p.1 else none)
  if playerEdges = [] then 0
  else
    let fuel := playerEdges.length + 1
    playerEdges.foldl (fun best e =>
      match alookup s.boardGraph.edgeToVertices e with
      | none => best
      | some (v1, v2) =>
        let fromV := fun (v : VertexId) (acc : Nat) =>
          match alookup s.vertexBuildings v with
          | some b =>
            if b.playerIndex ≠ playerIndex then max acc 1
            else max acc (lrDfs s.boardGraph s.vertexBuildings playerEdges playerIndex
              fuel v [e] 1)
          | none => max acc (lrDfs s.boardGraph s.vertexBuildings playerEdges playerIndex
              fuel v [e] 1)
        fromV v2 (fromV v1 best)) 0

-- ======================================================================
-- Bonus arbitration (longest-road.ts `updateLongestRoad`,
-- largest-army.ts `updateLargestArmy`)
-- ======================================================================

/-- One iteration of the shared max/tie scanning loop of
`updateLongestRoad` and `updateLargestArmy` (the two sources contain the
same loop verbatim, over road lengths resp. played-knight counts). -/
def bonusScanStep (minReq : Nat) (acc : Nat × Option Nat × Bool) (iv : Nat × Nat) :
    Nat × Option Nat × Bool :=
  if iv.2 ≥ minReq then
    if iv.2 > acc.1 then (iv.2, some iv.1, false)
    else if iv.2 = acc.1 then (acc.1, acc.2.1, true)
    else acc
  else acc

def bonusScan (minReq : Nat) (vals : List Nat) : Nat × Option Nat × Bool :=
  vals.enum.foldl (bonusScanStep minReq) (0, none, false)

/-- The shared resolution logic after the scan: strict maximum wins, a tie
is kept by the incumbent only if still tied, otherwise nobody holds the
bonus. -/
def resolveBonus (minReq : Nat) (vals : List Nat) (prevHolder : Option Nat) :
    Option Nat × Nat :=
  let scan := bonusScan minReq vals
  match scan.2.1 with
  | none => (none, 0)
  | some mp =>
    if scan.2.2 then
      match prevHolder with
      | some p => if vals.get? p = some scan.1 then (some p, scan.1) else (none, 0)
      | none => (none, 0)
    else (some mp, scan.1)

/-- `updateLargestArmy` of largest-army.ts. -/
def updateLargestArmy (s : GameState) : GameState :=
  let res := resolveBonus LARGEST_ARMY_MINIMUM (s.players.map (·.playedKnights))
    s.largestArmyPlayer
  { s with largestArmyPlayer := res.1, largestArmySize := res.2 }

/-- `updateLongestRoad` of longest-road.ts (minimum 5 inlined there). -/
def updateLongestRoad (s : GameState) : GameState :=
  let lengths := (List.range s.players.length).map (calculateLongestRoad s)
  let res := resolveBonus 5 lengths s.longestRoadPlayer
  { s with longestRoadPlayer := res.1, longestRoadLength := res.2 }

-- ======================================================================
-- Victory evaluation (src/engine/victory.ts)
-- ======================================================================

/-- `calculateVictoryPoints`: settlements ×1 and cities ×2 counted from
the board, +2 for each held bonus, plus victory-point cards in hand and
freshly drawn. -/
def calculateVictoryPoints (s : GameState) (playerIndex : Nat) : Nat :=
  let player := playerAt s playerIndex
  let settlementCount := (s.vertexBuildings.filter (fun p =>
    p.2.playerIndex = playerIndex ∧ p.2.type = BuildingType.settlement)).length
  let cityCount := (s.vertexBuildings.filter (fun p =>
    p.2.playerIndex = playerIndex ∧ p.2.type = BuildingType.city)).length
  let roadBonus := if s.longestRoadPlayer = some playerIndex then 2 else 0
  let armyBonus := if s.largestArmyPlayer = some playerIndex then 2 else 0
  let vpCards := (player.developmentCards.filter
    (· = DevelopmentCardType.victoryPoint)).length
  let vpNewCards := (player.newDevCards.filter
    (· = DevelopmentCardType.victoryPoint)).length
  settlementCount * 1 + cityCount * 2 + roadBonus + armyBonus + vpCards + vpNewCards

/-- `checkVictory`: the first player index at or above the victory
threshold, if any. -/
def checkVictory (s : GameState) : Option Nat :=
  (List.range s.players.length).find? (fun i =>
    calculateVictoryPoints s i ≥ VICTORY_POINTS_TO_WIN)

-- ======================================================================
-- Small board-query helpers shared by validators and enumerators
-- (the corresponding loops are verbatim-identical in the sources)
-- ======================================================================

/-- Whether the player owns the road on the given edge. -/
def roadOwnedBy (s : GameState) (e : EdgeId) (playerIndex : Nat) : Bool :=
  match alookup s.edgeRoads e with
  | some road => road.playerIndex = playerIndex
  | none => false

/-- Whether the player owns a building at the given vertex. -/
def ownBuildingAt (s : GameState) (v : VertexId) (playerIndex : Nat) : Bool :=
  match alookup s.vertexBuildings v with
  | some b => b.playerIndex = playerIndex
  | none => false

/-- Whether some opponent owns a building at the given vertex. -/
def opponentBuildingAt (s : GameState) (v : VertexId) (playerIndex : Nat) : Bool :=
  match alookup s.vertexBuildings v with
  | some b => b.playerIndex ≠ playerIndex
  | none => false

/-- Road-based connection through one endpoint of a prospective road: an
opponent building blocks the vertex, otherwise any other own road on an
edge of the vertex connects. -/
def ownRoadThrough (s : GameState) (playerIndex : Nat) (ek : EdgeId) (v : VertexId) :
    Bool :=
  if opponentBuildingAt s v playerIndex then false
  else ((alookup s.boardGraph.vertexToEdges v).getD []).any (fun ae =>
    ae ≠ ek && roadOwnedBy s ae playerIndex)

/-- The full road-connectivity test of build-road.ts (and of
`getValidRoadLocations`): an own building at either endpoint, or an own
road through an endpoint not blocked by an opponent building. -/
def roadConnected (s : GameState) (playerIndex : Nat) (ek : EdgeId)
    (v1 v2 : VertexId) : Bool :=
  ownBuildingAt s v1 playerIndex || ownBuildingAt s v2 playerIndex
    || ownRoadThrough s playerIndex ek v1 || ownRoadThrough s playerIndex ek v2

/-- The distance-rule test: some vertex adjacent to `v` is occupied. -/
def adjacentOccupied (s : GameState) (v : VertexId) : Bool :=
  ((alookup s.boardGraph.vertexToVertices v).getD []).any (fun av =>
    (alookup s.vertexBuildings av).isSome)

/-- Whether the vertex has an own road on one of its board edges
(`none` when the vertex has no adjacency entry, in which case callers
treat the vertex differently — see each use). -/
def ownRoadAtVertex (s : GameState) (v : VertexId) (playerIndex : Nat) : Option Bool :=
  match alookup s.boardGraph.vertexToEdges v with
  | some adjEdges => some (adjEdges.any (fun e => roadOwnedBy s e playerIndex))
  | none => none

def resourceName : ResourceType → String
  | ResourceType.wood => "wood"
  | ResourceType.brick => "brick"
  | ResourceType.sheep => "sheep"
  | ResourceType.wheat => "wheat"
  | ResourceType.ore => "ore"

-- ======================================================================
-- Validators (src/engine/validators/*.ts)
-- ======================================================================

def validateRollDice (s : GameState) (pi : Nat) : Option String :=
  if pi ≠ s.currentPlayerIndex then some "Not your turn"
  else if s.phase ≠ GamePhase.preRoll then some "Can only roll dice in PreRoll phase"
  else none

def validateBuildSettlement (s : GameState) (pi : Nat) (vk : VertexId) : Option String :=
  if pi ≠ s.currentPlayerIndex then some "Not your turn"
  else if s.phase ≠ GamePhase.main then some "Can only build settlements in Main phase"
  else if ¬ hasResources (playerAt s pi).resources SETTLEMENT_COST then
    some "Insufficient resources for settlement"
  else if (playerAt s pi).settlements ≤ 0 then some "No settlement pieces remaining"
  else if ¬ (alookup s.boardGraph.vertexToHexes vk).isSome then
    some "Invalid vertex location"
  else if (alookup s.vertexBuildings vk).isSome then some "Vertex already occupied"
  else if adjacentOccupied s vk then some "Too close to another building (distance rule)"
  else
    match ownRoadAtVertex s vk pi with
    | none => some "Invalid vertex location"
    | some hasAdjacentRoad =>
      if ¬ hasAdjacentRoad then some "Must build adjacent to your own road" else none

def validateBuildRoad (s : GameState) (pi : Nat) (ek : EdgeId) : Option String :=
  if pi ≠ s.currentPlayerIndex then some "Not your turn"
  else if s.phase ≠ GamePhase.main ∧ s.phase ≠ GamePhase.roadBuilding then
    some "Can only build roads in Main or RoadBuilding phase"
  else if s.phase = GamePhase.main
      ∧ ¬ hasResources (playerAt s pi).resources ROAD_COST then
    some "Insufficient resources for road"
  else if (playerAt s pi).roads ≤ 0 then some "No road pieces remaining"
  else
    match alookup s.boardGraph.edgeToVertices ek with
    | none => some "Invalid edge location"
    | some endpoints =>
      if (alookup s.edgeRoads ek).isSome then some "Edge already has a road"
      else if ¬ roadConnected s pi ek endpoints.1 endpoints.2 then
        some "Road must connect to your own road, settlement, or city"
      else none

def validateBuildCity (s : GameState) (pi : Nat) (vk : VertexId) : Option String :=
  if pi ≠ s.currentPlayerIndex then some "Not your turn"
  else if s.phase ≠ GamePhase.main then some "Can only build cities in Main phase"
  else if ¬ hasResources (playerAt s pi).resources CITY_COST then
    some "Insufficient resources for city"
  else if (playerAt s pi).cities ≤ 0 then some "No city pieces remaining"
  else
    match alookup s.vertexBuildings vk with
    | none => some "No building at this vertex"
    | some building =>
      if building.playerIndex ≠ pi then some "Not your building"
      else if building.type ≠ BuildingType.settlement then
        some "Can only upgrade settlements to cities"
      else none

def validateBuyDevCard (s : GameState) (pi : Nat) : Option String :=
  if pi ≠ s.currentPlayerIndex then some "Not your turn"
  else if s.phase ≠ GamePhase.main then
    some "Can only buy development cards in Main phase"
  else if ¬ hasResources (playerAt s pi).resources DEV_CARD_COST then
    some "Insufficient resources for development card"
  else if s.devCardDeck.length = 0 then some "Development card deck is empty"
  else none

def validateKnight (s : GameState) (pi : Nat) : Option String :=
  if pi ≠ s.currentPlayerIndex then some "Not your turn"
  else if s.phase ≠ GamePhase.preRoll ∧ s.phase ≠ GamePhase.main then
    some "Can only play knight in PreRoll or Main phase"
  else if (playerAt s pi).hasPlayedDevCardThisTurn then
    some "Already played a development card this turn"
  else if DevelopmentCardType.knight ∉ (playerAt s pi).developmentCards then
    some "No knight card in hand"
  else none

def validateRoadBuildingCard (s : GameState) (pi : Nat) : Option String :=
  if pi ≠ s.currentPlayerIndex then some "Not your turn"
  else if s.phase ≠ GamePhase.main then some "Can only play road building in Main phase"
  else if (playerAt s pi).hasPlayedDevCardThisTurn then
    some "Already played a development card this turn"
  else if DevelopmentCardType.roadBuilding ∉ (playerAt s pi).developmentCards then
    some "No road building card in hand"
  else if (playerAt s pi).roads ≤ 0 then some "No road pieces remaining"
  else none

def validateYearOfPlenty (s : GameState) (pi : Nat) (r1 r2 : ResourceType) :
    Option String :=
  if pi ≠ s.currentPlayerIndex then some "Not your turn"
  else if s.phase ≠ GamePhase.main then
    some "Can only play year of plenty in Main phase"
  else if (playerAt s pi).hasPlayedDevCardThisTurn then
    some "Already played a development card this turn"
  else if DevelopmentCardType.yearOfPlenty ∉ (playerAt s pi).developmentCards then
    some "No year of plenty card in hand"
  else if r1 ∉ RESOURCE_TYPES ∨ r2 ∉ RESOURCE_TYPES then some "Invalid resource type"
  else none

def validateMonopoly (s : GameState) (pi : Nat) (r : ResourceType) : Option String :=
  if pi ≠ s.currentPlayerIndex then some "Not your turn"
  else if s.phase ≠ GamePhase.main then some "Can only play monopoly in Main phase"
  else if (playerAt s pi).hasPlayedDevCardThisTurn then
    some "Already played a development card this turn"
  else if DevelopmentCardType.monopoly ∉ (playerAt s pi).developmentCards then
    some "No monopoly card in hand"
  else if r ∉ RESOURCE_TYPES then some "Invalid resource type"
  else none

def validateMoveRobber (s : GameState) (pi : Nat) (hex : AxialCoord) : Option String :=
  if pi ≠ s.currentPlayerIndex then some "Not your turn"
  else if s.phase ≠ GamePhase.moveRobber then some "Not in MoveRobber phase"
  else if hex = s.robberHex then some "Must move robber to a different hex"
  else if ¬ s.boardGraph.hexes.any (fun h => h.q = hex.q ∧ h.r = hex.r) then
    some "Invalid hex location"
  else none

def validateStealResource (s : GameState) (pi target : Nat) : Option String :=
  if pi ≠ s.currentPlayerIndex then some "Not your turn"
  else if s.phase ≠ GamePhase.stealResource then some "Not in StealResource phase"
  else if (match s.robberStealTargets with
           | none => true
           | some ts => target ∉ ts) then some "Invalid steal target"
  else if target = pi then some "Cannot steal from yourself"
  else none

def validateDiscard (s : GameState) (pi : Nat) (resources : ResourceBundle) :
    Option String :=
  if s.phase ≠ GamePhase.discard then some "Not in Discard phase"
  else if pi ∉ s.playersNeedingToDiscard then some "This player does not need to discard"
  else
    let handSize := totalResources (playerAt s pi).resources
    let mustDiscard := Int.fdiv handSize 2
    let discarding := totalResources resources
    if discarding ≠ mustDiscard then
      some ("Must discard exactly " ++ toString mustDiscard ++ " cards, got "
        ++ toString discarding)
    else if ¬ hasResources (playerAt s pi).resources resources then
      some "Cannot discard resources you do not have"
    else none

def validateTradeBank (s : GameState) (pi : Nat) (give receive : ResourceType) :
    Option String :=
  if pi ≠ s.currentPlayerIndex then some "Not your turn"
  else if s.phase ≠ GamePhase.main then some "Can only trade in Main phase"
  else
    let ratio := getTradeRatio s pi give
    if getRes (playerAt s pi).resources give < (ratio : Int) then
      some ("Need " ++ toString ratio ++ " " ++ resourceName give ++ " to trade (have "
        ++ toString (getRes (playerAt s pi).resources give) ++ ")")
    else if give = receive then some "Cannot trade a resource for itself"
    else none

def validateTradeOffer (s : GameState) (pi : Nat) (offering requesting : ResourceBundle) :
    Option String :=
  if pi ≠ s.currentPlayerIndex then some "Not your turn"
  else if s.phase ≠ GamePhase.main then some "Can only trade in Main phase"
  else if s.pendingTrade ≠ none then some "A trade is already pending"
  else if ¬ hasResources (playerAt s pi).resources offering then
    some "Insufficient resources to offer"
  else if totalResources offering = 0 then some "Must offer at least one resource"
  else if totalResources requesting = 0 then some "Must request at least one resource"
  else none

def validateTradeAccept (s : GameState) (pi : Nat) : Option String :=
  if s.phase ≠ GamePhase.main then some "Can only trade in Main phase"
  else
    match s.pendingTrade with
    | none => some "No pending trade"
    | some pt =>
      if pi = pt.fromPlayer then some "Cannot accept your own trade"
      else if ¬ hasResources (playerAt s pi).resources pt.requesting then
        some "Insufficient resources to accept this trade"
      else none

def validateTradeReject (s : GameState) (pi : Nat) : Option String :=
  if s.phase ≠ GamePhase.main then some "Can only trade in Main phase"
  else
    match s.pendingTrade with
    | none => some "No pending trade"
    | some pt =>
      if pi = pt.fromPlayer then some "Cannot reject your own trade" else none

def validateTradeConfirm (s : GameState) (pi target : Nat) : Option String :=
  if pi ≠ s.currentPlayerIndex then some "Not your turn"
  else if s.phase ≠ GamePhase.main then some "Can only trade in Main phase"
  else
    match s.pendingTrade with
    | none => some "No pending trade"
    | some pt =>
      if pt.fromPlayer ≠ pi then some "Only the offering player can confirm"
      else if alookup pt.responses target ≠ some TradeResponse.accept then
        some "Target player has not accepted"
      else if ¬ hasResources (playerAt s pi).resources pt.offering then
        some "Offering player no longer has the resources"
      else if ¬ hasResources (playerAt s target).resources pt.requesting then
        some "Accepting player no longer has the resources"
      else none

def validateTradeCancel (s : GameState) (pi : Nat) : Option String :=
  if pi ≠ s.currentPlayerIndex then some "Not your turn"
  else if s.phase ≠ GamePhase.main then some "Can only trade in Main phase"
  else
    match s.pendingTrade with
    | none => some "No pending trade"
    | some pt =>
      if pt.fromPlayer ≠ pi then some "Only the offering player can cancel" else none

def validateEndTurn (s : GameState) (pi : Nat) : Option String :=
  if pi ≠ s.currentPlayerIndex then some "Not your turn"
  else if s.phase ≠ GamePhase.main then some "Can only end turn in Main phase"
  else none

def validateSetupSettlement (s : GameState) (pi : Nat) (vk : VertexId) : Option String :=
  if s.phase ≠ GamePhase.setupSettlement then some "Not in SetupSettlement phase"
  else if pi ≠ s.currentPlayerIndex then some "Not your turn"
  else if ¬ (alookup s.boardGraph.vertexToHexes vk).isSome then
    some "Invalid vertex location"
  else if (alookup s.vertexBuildings vk).isSome then some "Vertex already occupied"
  else if adjacentOccupied s vk then some "Too close to another building (distance rule)"
  else none

/-- The settlement a setup road must attach to: the first own settlement
with no adjacent own road (skipping vertices without an adjacency entry),
falling back to the last own settlement found. -/
def findLastPlacedSettlement (s : GameState) (pi : Nat) : Option VertexId :=
  let playerSettlements := s.vertexBuildings.filterMap (fun p =>
    if p.2.playerIndex = pi ∧ p.2.type = BuildingType.settlement then some p.1 else none)
  match playerSettlements.find? (fun vk =>
    match ownRoadAtVertex s vk pi with
    | some hasRoad => ¬ hasRoad
    | none => false) with
  | some vk => some vk
  | none => playerSettlements.getLast?

def validateSetupRoad (s : GameState) (pi : Nat) (ek : EdgeId) : Option String :=
  if s.phase ≠ GamePhase.setupRoad then some "Not in SetupRoad phase"
  else if pi ≠ s.currentPlayerIndex then some "Not your turn"
  else if ¬ (alookup s.boardGraph.edgeToVertices ek).isSome then
    some "Invalid edge location"
  else if (alookup s.edgeRoads ek).isSome then some "Edge already has a road"
  else
    match findLastPlacedSettlement s pi with
    | none => some "No settlement found to connect road to"
    | some lastSettlement =>
      match alookup s.boardGraph.vertexToEdges lastSettlement with
      | none => some "Invalid settlement location"
      | some adjEdges =>
        if ek ∉ adjEdges then some "Road must be adjacent to your last placed settlement"
        else none

/-- `validateAction` of actions.ts: the top-level dispatcher. -/
def validateAction (s : GameState) (a : GameAction) : Option String :=
  if s.phase = GamePhase.gameOver then some "Game is over"
  else
    match a with
    | GameAction.rollDice pi => validateRollDice s pi
    | GameAction.buildSettlement pi vk => validateBuildSettlement s pi vk
    | GameAction.buildRoad pi ek => validateBuildRoad s pi ek
    | GameAction.buildCity pi vk => validateBuildCity s pi vk
    | GameAction.buyDevCard pi => validateBuyDevCard s pi
    | GameAction.playKnight pi => validateKnight s pi
    | GameAction.playRoadBuilding pi => validateRoadBuildingCard s pi
    | GameAction.playYearOfPlenty pi r1 r2 => validateYearOfPlenty s pi r1 r2
    | GameAction.playMonopoly pi r => validateMonopoly s pi r
    | GameAction.moveRobber pi hex => validateMoveRobber s pi hex
    | GameAction.stealResource pi target => validateStealResource s pi target
    | GameAction.discardResources pi res => validateDiscard s pi res
    | GameAction.tradeBank pi give receive => validateTradeBank s pi give receive
    | GameAction.tradeOffer pi off req => validateTradeOffer s pi off req
    | GameAction.tradeAccept pi => validateTradeAccept s pi
    | GameAction.tradeReject pi => validateTradeReject s pi
    | GameAction.tradeConfirm pi target => validateTradeConfirm s pi target
    | GameAction.tradeCancel pi => validateTradeCancel s pi
    | GameAction.endTurn pi => validateEndTurn s pi
    | GameAction.setupPlaceSettlement pi vk => validateSetupSettlement s pi vk
    | GameAction.setupPlaceRoad pi ek => validateSetupRoad s pi ek

-- ======================================================================
-- Apply functions (src/engine/validators/*.ts)
-- Every apply mirrors its source: intermediate state is assembled through
-- functional record updates and the single final return literal carries
-- valid := true.  `now` stands for `Date.now()`.
-- ======================================================================

/-- Append one entry to the game log. -/
def pushLog (s : GameState) (msg : String) (now : Nat) (pi : Option Nat) : GameState :=
  { s with log := s.log ++ [⟨msg, now, pi⟩] }

/-- Remove the first occurrence of an element
(`indexOf` + `splice(idx, 1)`; the element is always present at the call
sites, guarded by validation). -/
def removeFirst {α : Type} [DecidableEq α] (x : α) : List α → List α
  | [] => []
  | y :: ys => if y = x then ys else y :: removeFirst x ys

/-- The two dice of `roll-dice.ts`, drawn from a mulberry32 stream seeded
with `randomSeed + turnNumber·1000 + Date.now()`. -/
def diceRollOf (s : GameState) (now : Nat) : Nat × Nat :=
  let r0 := (s.randomSeed + s.turnNumber * 1000 + now) % M32
  let p1 := rngNext r0
  let p2 := rngNext p1.1
  (p1.2 * 6 / M32 + 1, p2.2 * 6 / M32 + 1)

def applyRollDice (s : GameState) (pi : Nat) (now : Nat) : ActionResult :=
  let dice := diceRollOf s now
  let total := dice.1 + dice.2
  let s1 := { s with lastDiceRoll := some dice }
  let branch : GameState × List GameEvent :=
    if total = 7 then
      let needToDiscard := (List.range s1.players.length).filter (fun i =>
        totalResources (playerAt s1 i).resources > MAX_HAND_SIZE_BEFORE_DISCARD)
      if needToDiscard ≠ [] then
        ({ s1 with
            playersNeedingToDiscard := needToDiscard
            phase := GamePhase.discard },
         [GameEvent.diceRolled pi dice total, GameEvent.mustDiscard needToDiscard])
      else
        ({ s1 with phase := GamePhase.moveRobber },
         [GameEvent.diceRolled pi dice total, GameEvent.moveRobberEvt])
    else
      let pr := produceResources s1 total
      ({ pr.1 with phase := GamePhase.main },
       GameEvent.diceRolled pi dice total :: pr.2)
  { valid := true, error := none
    state := pushLog branch.1
      ("Player " ++ toString pi ++ " rolled " ++ toString dice.1 ++ " + "
        ++ toString dice.2 ++ " = " ++ toString total) now (some pi)
    events := branch.2 }

/-- The first port serving the vertex whose type is new to the player is
granted (build-settlement.ts `assignPortIfApplicable`). -/
def assignPortIfApplicable (s : GameState) (vk : VertexId) (pi : Nat) : GameState :=
  match s.ports.find? (fun port =>
    (port.vertices.1 = vk ∨ port.vertices.2 = vk)
      ∧ port.type ∉ (playerAt s pi).ports) with
  | some port =>
    let player := playerAt s pi
    { s with players := s.players.set pi { player with ports := player.ports ++ [port.type] } }
  | none => s

def applyBuildSettlement (s : GameState) (pi : Nat) (vk : VertexId) (now : Nat) :
    ActionResult :=
  let player := playerAt s pi
  let player1 := { player with
    resources := subtractResources player.resources SETTLEMENT_COST
    settlements := player.settlements - 1 }
  let s1 := { s with players := s.players.set pi player1 }
  let s2 := { s1 with
    vertexBuildings := recordSet s1.vertexBuildings vk ⟨BuildingType.settlement, pi⟩ }
  let s3 := assignPortIfApplicable s2 vk pi
  let s4 := updateLongestRoad s3
  let s5 := match checkVictory s4 with
    | some w => { s4 with winner := some w, phase := GamePhase.gameOver }
    | none => s4
  { valid := true, error := none
    state := pushLog s5 ("Player " ++ toString pi ++ " built a settlement") now (some pi)
    events := [GameEvent.settlementBuilt pi vk] }

def applyBuildRoad (s : GameState) (pi : Nat) (ek : EdgeId) (now : Nat) : ActionResult :=
  let player := playerAt s pi
  let player1 := { player with
    resources := if s.phase = GamePhase.main
      then subtractResources player.resources ROAD_COST else player.resources
    roads := player.roads - 1 }
  let s1 := { s with players := s.players.set pi player1 }
  let s2 := { s1 with edgeRoads := recordSet s1.edgeRoads ek ⟨pi⟩ }
  let s3 :=
    if s.phase = GamePhase.roadBuilding then
      let left := s.roadBuildingRoadsLeft - 1
      if left ≤ 0 then { s2 with roadBuildingRoadsLeft := left, phase := GamePhase.main }
      else { s2 with roadBuildingRoadsLeft := left }
    else s2
  let s4 := updateLongestRoad s3
  let s5 := match checkVictory s4 with
    | some w => { s4 with winner := some w, phase := GamePhase.gameOver }
    | none => s4
  { valid := true, error := none
    state := pushLog s5 ("Player " ++ toString pi ++ " built a road") now (some pi)
    events := [GameEvent.roadBuilt pi ek] }

def applyBuildCity (s : GameState) (pi : Nat) (vk : VertexId) (now : Nat) :
    ActionResult :=
  let player := playerAt s pi
  let player1 := { player with
    resources := subtractResources player.resources CITY_COST
    cities := player.cities - 1
    settlements := player.settlements + 1 }
  let s1 := { s with players := s.players.set pi player1 }
  let s2 := { s1 with
    vertexBuildings := recordSet s1.vertexBuildings vk ⟨BuildingType.city, pi⟩ }
  let s3 := match checkVictory s2 with
    | some w => { s2 with winner := some w, phase := GamePhase.gameOver }
    | none => s2
  { valid := true, error := none
    state := pushLog s3 ("Player " ++ toString pi ++ " built a city") now (some pi)
    events := [GameEvent.cityBuilt pi vk] }

def applyBuyDevCard (s : GameState) (pi : Nat) (now : Nat) : ActionResult :=
  let player := playerAt s pi
  -- the deck is non-empty here (validated); `headD` models the defined case
  let card := s.devCardDeck.headD DevelopmentCardType.knight
  let newDeck := s.devCardDeck.tail
  let player1 := { player with
    resources := subtractResources player.resources DEV_CARD_COST
    newDevCards := player.newDevCards ++ [card] }
  let s1 := { s with players := s.players.set pi player1, devCardDeck := newDeck }
  let s2 := match checkVictory s1 with
    | some w => { s1 with winner := some w, phase := GamePhase.gameOver }
    | none => s1
  { valid := true, error := none
    state := pushLog s2 ("Player " ++ toString pi ++ " bought a development card")
      now (some pi)
    events := [GameEvent.devCardBought pi card] }

def applyKnight (s : GameState) (pi : Nat) (now : Nat) : ActionResult :=
  let player := playerAt s pi
  let player1 := { player with
    developmentCards := removeFirst DevelopmentCardType.knight player.developmentCards
    playedKnights := player.playedKnights + 1
    hasPlayedDevCardThisTurn := true }
  let s1 := { s with players := s.players.set pi player1, phase := GamePhase.moveRobber }
  let s2 := updateLargestArmy s1
  let s3 := match checkVictory s2 with
    | some w => { s2 with winner := some w, phase := GamePhase.gameOver }
    | none => s2
  { valid := true, error := none
    state := pushLog s3 ("Player " ++ toString pi ++ " played a knight") now (some pi)
    events := [GameEvent.knightPlayed pi] }

def applyRoadBuildingCard (s : GameState) (pi : Nat) (now : Nat) : ActionResult :=
  let player := playerAt s pi
  let player1 := { player with
    developmentCards :=
      removeFirst DevelopmentCardType.roadBuilding player.developmentCards
    hasPlayedDevCardThisTurn := true }
  let s1 := { s with
    players := s.players.set pi player1
    phase := GamePhase.roadBuilding
    roadBuildingRoadsLeft := min 2 player1.roads }
  { valid := true, error := none
    state := pushLog s1 ("Player " ++ toString pi ++ " played road building")
      now (some pi)
    events := [GameEvent.roadBuildingPlayed pi] }

def applyYearOfPlenty (s : GameState) (pi : Nat) (r1 r2 : ResourceType) (now : Nat) :
    ActionResult :=
  let player := playerAt s pi
  let player1 := { player with
    developmentCards :=
      removeFirst DevelopmentCardType.yearOfPlenty player.developmentCards
    hasPlayedDevCardThisTurn := true }
  let player2 := { player1 with
    resources := addResource (addResource player1.resources r1 1) r2 1 }
  let s1 := { s with players := s.players.set pi player2 }
  { valid := true, error := none
    state := pushLog s1 ("Player " ++ toString pi ++ " played year of plenty ("
      ++ resourceName r1 ++ ", " ++ resourceName r2 ++ ")") now (some pi)
    events := [GameEvent.yearOfPlentyPlayed pi r1 r2] }

def applyMonopoly (s : GameState) (pi : Nat) (r : ResourceType) (now : Nat) :
    ActionResult :=
  let totalStolen := (s.players.enum.map (fun p =>
    if p.1 = pi then 0
    else (let a := getRes p.2.resources r; if a > 0 then a else 0))).sum
  let players1 := s.players.enum.map (fun p =>
    if p.1 = pi then p.2
    else
      let a := getRes p.2.resources r
      if a > 0 then { p.2 with resources := setRes p.2.resources r 0 } else p.2)
  let player := playerAt s pi
  let player1 := { player with
    developmentCards := removeFirst DevelopmentCardType.monopoly player.developmentCards
    hasPlayedDevCardThisTurn := true }
  let player2 := { player1 with
    resources := setRes player1.resources r (getRes player1.resources r + totalStolen) }
  let s1 := { s with players := players1.set pi player2 }
  { valid := true, error := none
    state := pushLog s1 ("Player " ++ toString pi ++ " played monopoly on "
      ++ resourceName r ++ ", took " ++ toString totalStolen) now (some pi)
    events := [GameEvent.monopolyPlayed pi r totalStolen] }

/-- `getPhaseAfterRobber` of move-robber.ts. -/
def getPhaseAfterRobber (s : GameState) : GamePhase :=
  match s.lastDiceRoll with
  | some d =>
    -- a rolled 7 returns to Main; any other recorded roll also falls
    -- through to the final `return Main` of the source
    if d.1 + d.2 = 7 then GamePhase.main else GamePhase.main
  | none => GamePhase.preRoll

def applyMoveRobber (s : GameState) (pi : Nat) (hex : AxialCoord) (now : Nat) :
    ActionResult :=
  let hexVerts := (alookup s.boardGraph.hexToVertices hex).getD []
  let stealTargets := dedupFirst (hexVerts.filterMap (fun v =>
    match alookup s.vertexBuildings v with
    | some b => if b.playerIndex ≠ pi then some b.playerIndex else none
    | none => none))
  let targetsWithResources := stealTargets.filter (fun idx =>
    let p := playerAt s idx
    p.resources.wood + p.resources.brick + p.resources.sheep + p.resources.wheat
      + p.resources.ore > 0)
  let branch : GameState × List GameEvent :=
    if targetsWithResources = [] then
      ({ s with
          robberHex := hex
          phase := getPhaseAfterRobber s
          robberStealTargets := none },
       [GameEvent.robberMoved hex])
    else
      ({ s with
          robberHex := hex
          robberStealTargets := some targetsWithResources
          phase := GamePhase.stealResource },
       [GameEvent.robberMoved hex, GameEvent.mustSteal targetsWithResources])
  { valid := true, error := none
    state := pushLog branch.1 ("Player " ++ toString pi ++ " moved the robber")
      now (some pi)
    events := branch.2 }

def applyStealResource (s : GameState) (pi target : Nat) (now : Nat) : ActionResult :=
  let targetPlayer := playerAt s target
  let stealingPlayer := playerAt s pi
  let availableResources := RESOURCE_TYPES.flatMap (fun r =>
    List.replicate (getRes targetPlayer.resources r).toNat r)
  let branch : (PlayerState × PlayerState) × List GameEvent :=
    if availableResources.length > 0 then
      let r0 := (s.randomSeed + s.turnNumber * 7919 + now) % M32
      let o := rngNext r0
      let idx := o.2 * availableResources.length / M32
      let stolen := availableResources.getD idx ResourceType.wood
      (({ targetPlayer with
           resources := setRes targetPlayer.resources stolen
             (getRes targetPlayer.resources stolen - 1) },
        { stealingPlayer with
           resources := setRes stealingPlayer.resources stolen
             (getRes stealingPlayer.resources stolen + 1) }),
       [GameEvent.resourceStolen pi target stolen])
    else ((targetPlayer, stealingPlayer), [])
  let players1 := (s.players.set pi branch.1.2).set target branch.1.1
  let s1 := { s with
    players := players1
    robberStealTargets := none
    phase := getPhaseAfterRobber s }
  { valid := true, error := none
    state := pushLog s1 ("Player " ++ toString pi ++ " stole from Player "
      ++ toString target) now (some pi)
    events := branch.2 }

def applyDiscard (s : GameState) (pi : Nat) (resources : ResourceBundle) (now : Nat) :
    ActionResult :=
  let player := playerAt s pi
  let player1 := { player with
    resources := subtractResources player.resources resources }
  let s1 := { s with
    players := s.players.set pi player1
    playersNeedingToDiscard := s.playersNeedingToDiscard.filter (· ≠ pi) }
  let branch : GameState × List GameEvent :=
    if s1.playersNeedingToDiscard.length = 0 then
      ({ s1 with phase := GamePhase.moveRobber },
       [GameEvent.resourcesDiscarded pi resources, GameEvent.allDiscarded])
    else (s1, [GameEvent.resourcesDiscarded pi resources])
  { valid := true, error := none
    state := pushLog branch.1 ("Player " ++ toString pi ++ " discarded resources")
      now (some pi)
    events := branch.2 }

def applyTradeBank (s : GameState) (pi : Nat) (give receive : ResourceType)
    (now : Nat) : ActionResult :=
  let ratio := getTradeRatio s pi give
  let player := playerAt s pi
  let res1 := setRes player.resources give (getRes player.resources give - (ratio : Int))
  let res2 := setRes res1 receive (getRes res1 receive + 1)
  let s1 := { s with players := s.players.set pi { player with resources := res2 } }
  { valid := true, error := none
    state := pushLog s1 ("Player " ++ toString pi ++ " traded " ++ toString ratio
      ++ " " ++ resourceName give ++ " for 1 " ++ resourceName receive
      ++ " with the bank") now (some pi)
    events := [GameEvent.bankTraded pi give receive ratio] }

def applyTradeOffer (s : GameState) (pi : Nat) (offering requesting : ResourceBundle)
    (now : Nat) : ActionResult :=
  let pt : TradeOffer :=
    { fromPlayer := pi, offering := offering, requesting := requesting, responses := [] }
  let s1 := { s with pendingTrade := some pt }
  { valid := true, error := none
    state := pushLog s1 ("Player " ++ toString pi ++ " proposed a trade") now (some pi)
    events := [GameEvent.tradeOffered pi offering requesting] }

def applyTradeAccept (s : GameState) (pi : Nat) (now : Nat) : ActionResult :=
  let s1 := { s with pendingTrade := s.pendingTrade.map (fun pt =>
    { pt with responses := recordSet pt.responses pi TradeResponse.accept }) }
  { valid := true, error := none
    state := pushLog s1 ("Player " ++ toString pi ++ " accepted the trade")
      now (some pi)
    events := [GameEvent.tradeAccepted pi] }

def applyTradeReject (s : GameState) (pi : Nat) (now : Nat) : ActionResult :=
  let s1 := { s with pendingTrade := s.pendingTrade.map (fun pt =>
    { pt with responses := recordSet pt.responses pi TradeResponse.reject }) }
  { valid := true, error := none
    state := pushLog s1 ("Player " ++ toString pi ++ " rejected the trade")
      now (some pi)
    events := [GameEvent.tradeRejected pi] }

def applyTradeConfirm (s : GameState) (pi target : Nat) (now : Nat) : ActionResult :=
  let trade := s.pendingTrade.getD ⟨0, EMPTY_RESOURCES, EMPTY_RESOURCES, []⟩
  let offerer := playerAt s pi
  let accepter := playerAt s target
  let offerer1 := { offerer with
    resources :=
      addResources (subtractResources offerer.resources trade.offering) trade.requesting }
  let accepter1 := { accepter with
    resources :=
      addResources (subtractResources accepter.resources trade.requesting) trade.offering }
  let players1 := (s.players.set pi offerer1).set target accepter1
  let s1 := { s with players := players1, pendingTrade := none }
  { valid := true, error := none
    state := pushLog s1 ("Player " ++ toString pi ++ " traded with Player "
      ++ toString target) now (some pi)
    events := [GameEvent.tradeConfirmed pi target] }

def applyTradeCancel (s : GameState) (pi : Nat) (now : Nat) : ActionResult :=
  let s1 := { s with pendingTrade := none }
  { valid := true, error := none
    state := pushLog s1 ("Player " ++ toString pi ++ " cancelled the trade")
      now (some pi)
    events := [GameEvent.tradeCancelled pi] }

def applyEndTurn (s : GameState) (pi : Nat) (now : Nat) : ActionResult :=
  let player := playerAt s pi
  let player1 :=
    if player.newDevCards.length > 0 then
      { player with
        developmentCards := player.developmentCards ++ player.newDevCards
        newDevCards := [] }
    else player
  let player2 := { player1 with hasPlayedDevCardThisTurn := false }
  let nextPlayer := (s.currentPlayerIndex + 1) % s.players.length
  let s1 := { s with
    players := s.players.set pi player2
    currentPlayerIndex := nextPlayer
    turnNumber := s.turnNumber + 1
    phase := GamePhase.preRoll
    lastDiceRoll := none
    pendingTrade := none }
  { valid := true, error := none
    state := pushLog s1 ("Player " ++ toString pi ++ " ended their turn") now (some pi)
    events := [GameEvent.turnEnded pi nextPlayer] }

def applySetupSettlement (s : GameState) (pi : Nat) (vk : VertexId) (now : Nat) :
    ActionResult :=
  let player := playerAt s pi
  let player1 := { player with settlements := player.settlements - 1 }
  let s1 := { s with players := s.players.set pi player1 }
  let s2 := { s1 with
    vertexBuildings := recordSet s1.vertexBuildings vk ⟨BuildingType.settlement, pi⟩ }
  -- every port serving the vertex whose type the (pre-loop) player lacks
  -- is granted; the membership test uses the stale `player` binding
  let s3 := s.ports.foldl (fun st port =>
    if port.vertices.1 = vk ∨ port.vertices.2 = vk then
      if port.type ∉ player1.ports then
        let pl := playerAt st pi
        { st with players := st.players.set pi { pl with ports := pl.ports ++ [port.type] } }
      else st
    else st) s2
  let s4 := { s3 with phase := GamePhase.setupRoad }
  { valid := true, error := none
    state := pushLog s4 ("Player " ++ toString pi ++ " placed a setup settlement")
      now (some pi)
    events := [GameEvent.setupSettlementPlaced pi vk] }

/-- `advanceSetup` of setup-placement.ts. -/
def advanceSetup (s : GameState) : GameState :=
  let numPlayers := s.players.length
  let setupOrder := getSetupOrder numPlayers
  let nextStep := s.turnNumber + 1
  if nextStep ≥ setupOrder.length then
    { s with
      phase := GamePhase.preRoll
      currentPlayerIndex := 0
      turnNumber := 0
      setupRound := 0 }
  else
    { s with
      phase := GamePhase.setupSettlement
      currentPlayerIndex := setupOrder.getD nextStep 0
      turnNumber := nextStep
      setupRound := if nextStep ≥ numPlayers then 2 else 1 }

def applySetupRoad (s : GameState) (pi : Nat) (ek : EdgeId) (now : Nat) :
    ActionResult :=
  let player := playerAt s pi
  let player1 := { player with roads := player.roads - 1 }
  let s1 := { s with players := s.players.set pi player1 }
  let s2 := { s1 with edgeRoads := recordSet s1.edgeRoads ek ⟨pi⟩ }
  let s3 :=
    if s.setupRound = 2 then
      match findLastPlacedSettlement s pi with
      | some settlementVk =>
        match alookup s.boardGraph.vertexToHexes settlementVk with
        | some adjHexes =>
          let pl := playerAt s2 pi
          let res := adjHexes.foldl (fun acc hex =>
            match s.hexTiles.find? (fun t => t.coord.q = hex.q ∧ t.coord.r = hex.r) with
            | some tile =>
              match TERRAIN_TO_RESOURCE tile.terrain with
              | some r => addResource acc r 1
              | none => acc
            | none => acc) pl.resources
          { s2 with players := s2.players.set pi { pl with resources := res } }
        | none => s2
      | none => s2
    else s2
  let s4 := advanceSetup s3
  { valid := true, error := none
    state := pushLog s4 ("Player " ++ toString pi ++ " placed a setup road")
      now (some pi)
    events := [GameEvent.setupRoadPlaced pi ek] }

/-- `applyAction` of actions.ts: re-validate, return the untouched state
with the error on failure, dispatch otherwise. -/
def applyAction (s : GameState) (a : GameAction) (now : Nat) : ActionResult :=
  match validateAction s a with
  | some e => { valid := false, error := some e, state := s, events := [] }
  | none =>
    match a with
    | GameAction.rollDice pi => applyRollDice s pi now
    | GameAction.buildSettlement pi vk => applyBuildSettlement s pi vk now
    | GameAction.buildRoad pi ek => applyBuildRoad s pi ek now
    | GameAction.buildCity pi vk => applyBuildCity s pi vk now
    | GameAction.buyDevCard pi => applyBuyDevCard s pi now
    | GameAction.playKnight pi => applyKnight s pi now
    | GameAction.playRoadBuilding pi => applyRoadBuildingCard s pi now
    | GameAction.playYearOfPlenty pi r1 r2 => applyYearOfPlenty s pi r1 r2 now
    | GameAction.playMonopoly pi r => applyMonopoly s pi r now
    | GameAction.moveRobber pi hex => applyMoveRobber s pi hex now
    | GameAction.stealResource pi target => applyStealResource s pi target now
    | GameAction.discardResources pi res => applyDiscard s pi res now
    | GameAction.tradeBank pi give receive => applyTradeBank s pi give receive now
    | GameAction.tradeOffer pi off req => applyTradeOffer s pi off req now
    | GameAction.tradeAccept pi => applyTradeAccept s pi now
    | GameAction.tradeReject pi => applyTradeReject s pi now
    | GameAction.tradeConfirm pi target => applyTradeConfirm s pi target now
    | GameAction.tradeCancel pi => applyTradeCancel s pi now
    | GameAction.endTurn pi => applyEndTurn s pi now
    | GameAction.setupPlaceSettlement pi vk => applySetupSettlement s pi vk now
    | GameAction.setupPlaceRoad pi ek => applySetupRoad s pi ek now

-- ======================================================================
-- Legal-location and legal-action enumerators (src/engine/actions.ts)
-- ======================================================================

/-- `getValidSettlementLocations`: empty vertices respecting the distance
rule, and (outside setup) adjacent to an own road. -/
def getValidSettlementLocations (s : GameState) (pi : Nat) : List VertexId :=
  let isSetup := s.phase = GamePhase.setupSettlement
  s.boardGraph.vertices.filter (fun v =>
    if (alookup s.vertexBuildings v).isSome then false
    else if adjacentOccupied s v then false
    else if ¬ isSetup then
      match ownRoadAtVertex s v pi with
      | none => false
      | some hasRoad => hasRoad
    else true)

/-- `getValidRoadLocations`: empty edges connected to the player's
network (the connectivity loop is the one of build-road.ts). -/
def getValidRoadLocations (s : GameState) (pi : Nat) : List EdgeId :=
  s.boardGraph.edges.filter (fun e =>
    if (alookup s.edgeRoads e).isSome then false
    else
      match alookup s.boardGraph.edgeToVertices e with
      | none => false
      | some endpoints => roadConnected s pi e endpoints.1 endpoints.2)

/-- `getValidCityLocations`: the player's settlements on the board. -/
def getValidCityLocations (s : GameState) (pi : Nat) : List VertexId :=
  s.vertexBuildings.filterMap (fun p =>
    if p.2.playerIndex = pi ∧ p.2.type = BuildingType.settlement then some p.1 else none)

/-- `getValidRobberLocations`: every hex except the robber's. -/
def getValidRobberLocations (s : GameState) : List AxialCoord :=
  s.boardGraph.hexes.filter (fun h => h ≠ s.robberHex)

/-- The per-phase switch of `getLegalActions`, reached only for the
current player outside the Discard and pending-trade special cases. -/
def getLegalActionsDispatch (s : GameState) (pi : Nat) : List GameAction :=
  if pi ≠ s.currentPlayerIndex then []
  else
    let player := playerAt s pi
    match s.phase with
    | GamePhase.setupSettlement =>
      (getValidSettlementLocations s pi).map (GameAction.setupPlaceSettlement pi)
    | GamePhase.setupRoad =>
      s.boardGraph.edges.filterMap (fun e =>
        if validateSetupRoad s pi e = none then some (GameAction.setupPlaceRoad pi e)
        else none)
    | GamePhase.preRoll =>
      [GameAction.rollDice pi]
        ++ (if ¬ player.hasPlayedDevCardThisTurn
              ∧ DevelopmentCardType.knight ∈ player.developmentCards
            then [GameAction.playKnight pi] else [])
    | GamePhase.moveRobber =>
      (getValidRobberLocations s).map (GameAction.moveRobber pi)
    | GamePhase.stealResource =>
      match s.robberStealTargets with
      | some ts => ts.map (GameAction.stealResource pi)
      | none => []
    | GamePhase.roadBuilding =>
      s.boardGraph.edges.filterMap (fun e =>
        if validateBuildRoad s pi e = none then some (GameAction.buildRoad pi e)
        else none)
    | GamePhase.main =>
      (if player.settlements > 0 ∧ hasResources player.resources SETTLEMENT_COST
       then (getValidSettlementLocations s pi).map (GameAction.buildSettlement pi)
       else [])
      ++ (if player.roads > 0 ∧ hasResources player.resources ROAD_COST
          then (getValidRoadLocations s pi).map (GameAction.buildRoad pi) else [])
      ++ (if player.cities > 0 ∧ hasResources player.resources CITY_COST
          then (getValidCityLocations s pi).map (GameAction.buildCity pi) else [])
      ++ (if hasResources player.resources DEV_CARD_COST ∧ s.devCardDeck.length > 0
          then [GameAction.buyDevCard pi] else [])
      ++ (if ¬ player.hasPlayedDevCardThisTurn then
            (if DevelopmentCardType.knight ∈ player.developmentCards
             then [GameAction.playKnight pi] else [])
            ++ (if DevelopmentCardType.roadBuilding ∈ player.developmentCards
                  ∧ player.roads > 0
                then [GameAction.playRoadBuilding pi] else [])
            ++ (if DevelopmentCardType.yearOfPlenty ∈ player.developmentCards
                then RESOURCE_TYPES.flatMap (fun r1 =>
                  RESOURCE_TYPES.map (fun r2 => GameAction.playYearOfPlenty pi r1 r2))
                else [])
            ++ (if DevelopmentCardType.monopoly ∈ player.developmentCards
                then RESOURCE_TYPES.map (GameAction.playMonopoly pi) else [])
          else [])
      ++ (if s.pendingTrade = none then
            RESOURCE_TYPES.flatMap (fun give =>
              if (getTradeRatio s pi give : Int) ≤ getRes player.resources give then
                RESOURCE_TYPES.filterMap (fun receive =>
                  if give ≠ receive then some (GameAction.tradeBank pi give receive)
                  else none)
              else [])
          else [])
      ++ [GameAction.endTurn pi]
    | GamePhase.discard => []
    | GamePhase.gameOver => []

/-- `getLegalActions` of actions.ts, including its Discard-phase
placeholder action (a `discardResources` with an all-zero bundle) and the
pending-trade response shortcut. -/
def getLegalActions (s : GameState) (pi : Nat) : List GameAction :=
  if s.phase = GamePhase.gameOver then []
  else if s.phase = GamePhase.discard then
    if pi ∈ s.playersNeedingToDiscard then
      [GameAction.discardResources pi ⟨0, 0, 0, 0, 0⟩]
    else []
  else
    match s.pendingTrade, s.phase with
    | some pt, GamePhase.main =>
      if pi ≠ pt.fromPlayer ∧ (alookup pt.responses pi).isNone then
        (if validateTradeAccept s pi = none then [GameAction.tradeAccept pi] else [])
          ++ [GameAction.tradeReject pi]
      else []
    | _, _ => getLegalActionsDispatch s pi

-- ======================================================================
-- Specification-side definitions (written from the wording of the spec,
-- for comparison with the embedded code)
-- ======================================================================

/-- Resources the spec owes player `pi` from one producing hex: 1 per
adjacent settlement of the player, 2 per adjacent city. -/
def specHexPayout (s : GameState) (coord : AxialCoord) (pi : Nat) : Int :=
  (((alookup s.boardGraph.hexToVertices coord).getD []).map (fun v =>
    match alookup s.vertexBuildings v with
    | some b =>
      if b.playerIndex = pi then (if b.type = BuildingType.city then 2 else 1) else 0
    | none => 0)).sum

/-- The spec's production total for player `pi` and resource `r` on a
roll: over all hexes whose token equals the roll and that are not blocked
by the robber and whose terrain produces `r`, the additive payout. -/
def specProduction (s : GameState) (diceTotal : Nat) (pi : Nat) (r : ResourceType) :
    Int :=
  (s.hexTiles.map (fun tile =>
    if tile.numberToken = some diceTotal ∧ tile.coord ≠ s.robberHex then
      match TERRAIN_TO_RESOURCE tile.terrain with
      | some r' => if r' = r then specHexPayout s tile.coord pi else 0
      | none => 0
    else 0)).sum

/-- The other endpoint of an edge seen from one of its endpoints. -/
def otherEnd (g : BoardGraph) (e : EdgeId) (v : VertexId) : Option VertexId :=
  match alookup g.edgeToVertices e with
  | some p => if p.1 = v then some p.2 else if p.2 = v then some p.1 else none
  | none => none

/-- Whether an edge sequence starting at vertex `v` forms a chained path
whose interior vertices are free of opponent buildings (a vertex holding
an opponent building may end the path but not be traversed through). -/
def specPathOK (s : GameState) (pi : Nat) : VertexId → List EdgeId → Bool
  | _, [] => true
  | v, e :: rest =>
    match otherEnd s.boardGraph e v with
    | some w =>
      (decide (rest = []) || !opponentBuildingAt s w pi) && specPathOK s pi w rest
    | none => false

/-- The player's road edges, in insertion order. -/
def playerRoadEdges (s : GameState) (pi : Nat) : List EdgeId :=
  s.edgeRoads.filterMap (fun p => if p.2.playerIndex = pi then some p.1 else none)

/-- All subsets of a list, as lists in original order. -/
def subseqsOf {α : Type} : List α → List (List α)
  | [] => [[]]
  | x :: xs => subseqsOf xs ++ (subseqsOf xs).map (x :: ·)

/-- All ways to insert an element into a list. -/
def insertionsOf {α : Type} (x : α) : List α → List (List α)
  | [] => [[x]]
  | y :: ys => (x :: y :: ys) :: (insertionsOf x ys).map (y :: ·)

/-- All permutations of a list. -/
def permsOf {α : Type} : List α → List (List α)
  | [] => [[]]
  | x :: xs => (permsOf xs).flatMap (insertionsOf x)

/-- The spec's longest-road value: the maximum length of a duplicate-free
sequence of the player's road edges that chains into a path from either
endpoint of its first edge, under the opponent-building blocking rule. -/
def specLongestRoad (s : GameState) (pi : Nat) : Nat :=
  (((subseqsOf (playerRoadEdges s pi)).flatMap permsOf).filterMap (fun es =>
    match es with
    | [] => none
    | e :: _ =>
      match alookup s.boardGraph.edgeToVertices e with
      | some p =>
        if specPathOK s pi p.1 es || specPathOK s pi p.2 es then some es.length
        else none
      | none => none)).foldl max 0

/-- The spec's victory-point formula: settlements on the board ×1, cities
on the board ×2, +2 for the longest-road bonus, +2 for the largest-army
bonus, plus victory-point cards held including those drawn this turn. -/
def specVictoryPoints (s : GameState) (pi : Nat) : Nat :=
  ((s.vertexBuildings.filter (fun p =>
      p.2.playerIndex = pi ∧ p.2.type = BuildingType.settlement)).length * 1)
    + ((s.vertexBuildings.filter (fun p =>
        p.2.playerIndex = pi ∧ p.2.type = BuildingType.city)).length * 2)
    + (if s.longestRoadPlayer = some pi then 2 else 0)
    + (if s.largestArmyPlayer = some pi then 2 else 0)
    + (((playerAt s pi).developmentCards ++ (playerAt s pi).newDevCards).filter
        (· = DevelopmentCardType.victoryPoint)).length

-- ======================================================================
-- Reachability and engine invariants
-- ======================================================================

/-- States reachable from an initialized game (2–4 players, as the spec
requires of the surrounding application) by accepted actions; `now`
models the wall clock at each step. -/
inductive Reachable : GameState → Prop
  | init (cfg : GameConfig) (entropy : Nat) (h2 : 2 ≤ cfg.playerIds.length)
      (h4 : cfg.playerIds.length ≤ 4) : Reachable (initializeGame cfg entropy)
  | step {s : GameState} (a : GameAction) (now : Nat) : Reachable s →
      (applyAction s a now).valid = true → Reachable (applyAction s a now).state

/-- The distance rule as a state predicate: no vertex adjacent to an
occupied vertex is itself occupied. -/
def DistanceRuleOK (s : GameState) : Prop :=
  ∀ v w : VertexId, w ∈ (alookup s.boardGraph.vertexToVertices v).getD [] →
    ¬((alookup s.vertexBuildings v).isSome ∧ (alookup s.vertexBuildings w).isSome)

/-- The conjunction of engine invariants carried through the reachability
induction. -/
def StateOK (s : GameState) : Prop :=
  s.boardGraph = buildBoardGraph
    ∧ DistanceRuleOK s
    ∧ (akeys s.vertexBuildings).Nodup
    ∧ (s.phase = GamePhase.stealResource →
        ∀ ts, s.robberStealTargets = some ts → s.currentPlayerIndex ∉ ts)

-- ======================================================================
-- Concrete states used by witnesses and counterexamples
-- ======================================================================

def testConfig : GameConfig :=
  ⟨"g", some 42, ["Alice", "Bob", "Carol", "Dave"], ["p1", "p2", "p3", "p4"]⟩

def initState : GameState := initializeGame testConfig 0

/-- A hand-assembled base state on the standard board, used to probe
single functions on explicit inputs. -/
def mkBaseState (players : List PlayerState) : GameState :=
  { gameId := "t"
    randomSeed := 0
    hexTiles := []
    ports := []
    vertexBuildings := []
    edgeRoads := []
    robberHex := ⟨9, 9⟩
    players := players
    currentPlayerIndex := 0
    phase := GamePhase.main
    turnNumber := 0
    setupRound := 0
    lastDiceRoll := none
    devCardDeck := []
    pendingTrade := none
    playersNeedingToDiscard := []
    robberStealTargets := none
    longestRoadPlayer := none
    longestRoadLength := 0
    largestArmyPlayer := none
    largestArmySize := 0
    roadBuildingRoadsLeft := 0
    log := []
    winner := none
    boardGraph := buildBoardGraph }

def basePlayers : List PlayerState :=
  [createPlayer "p1" "A" PlayerColor.red, createPlayer "p2" "B" PlayerColor.blue]

/-- Five chained roads of player 0 around hex (0,0), an open 5-edge
chain with no buildings anywhere. -/
def chainState5 : GameState :=
  { mkBaseState basePlayers with
    edgeRoads :=
      [ (⟨0, 0, EDir.NE⟩, ⟨0⟩), (⟨0, 0, EDir.E⟩, ⟨0⟩), (⟨0, 0, EDir.SE⟩, ⟨0⟩),
        (⟨-1, 1, EDir.NE⟩, ⟨0⟩), (⟨-1, 0, EDir.E⟩, ⟨0⟩) ] }

/-- A 3-edge chain of player 0 with an opponent settlement at the
interior vertex (1,-1,S) between the first and second edges. -/
def chainState3 : GameState :=
  { mkBaseState basePlayers with
    edgeRoads :=
      [ (⟨0, 0, EDir.NE⟩, ⟨0⟩), (⟨0, 0, EDir.E⟩, ⟨0⟩), (⟨0, 0, EDir.SE⟩, ⟨0⟩) ]
    vertexBuildings := [(⟨1, -1, VDir.S⟩, ⟨BuildingType.settlement, 1⟩)] }

/-- A production state: one wheat hex numbered 8 with a settlement of
player 0 and a city of player 1 on its rim; the robber sits elsewhere. -/
def productionState : GameState :=
  { mkBaseState basePlayers with
    hexTiles := [⟨⟨0, 0⟩, TerrainType.fields, some 8⟩, ⟨⟨1, 0⟩, TerrainType.forest, some 5⟩]
    vertexBuildings :=
      [ (⟨0, 0, VDir.N⟩, ⟨BuildingType.settlement, 0⟩),
        (⟨0, 0, VDir.S⟩, ⟨BuildingType.city, 1⟩) ] }

/-- A state in which player 0 already holds ten victory points while the
winner field is still unset: four cities and two settlements on the
board.  Applying `endTurn` keeps the winner unset. -/
def tenPointState : GameState :=
  { mkBaseState basePlayers with
    vertexBuildings :=
      [ (⟨0, 0, VDir.N⟩, ⟨BuildingType.city, 0⟩),
        (⟨0, 1, VDir.N⟩, ⟨BuildingType.city, 0⟩),
        (⟨0, 2, VDir.N⟩, ⟨BuildingType.city, 0⟩),
        (⟨1, 0, VDir.N⟩, ⟨BuildingType.city, 0⟩),
        (⟨1, 1, VDir.N⟩, ⟨BuildingType.settlement, 0⟩),
        (⟨2, 0, VDir.N⟩, ⟨BuildingType.settlement, 0⟩) ] }

/-- A Discard-phase state with player 0 holding eight cards: the
legal-action enumerator emits only its zero-resource placeholder here. -/
def discardState : GameState :=
  { mkBaseState
      [ { createPlayer "p1" "A" PlayerColor.red with resources := ⟨8, 0, 0, 0, 0⟩ },
        createPlayer "p2" "B" PlayerColor.blue ] with
    phase := GamePhase.discard
    playersNeedingToDiscard := [0] }

/-- A PreRoll state with fat hands, for exercising the roll-a-seven
discard listing: player 0 holds 10 cards, player 1 holds 7. -/
def preRollState : GameState :=
  { mkBaseState
      [ { createPlayer "p1" "A" PlayerColor.red with resources := ⟨4, 3, 3, 0, 0⟩ },
        { createPlayer "p2" "B" PlayerColor.blue with resources := ⟨7, 0, 0, 0, 0⟩ } ] with
    phase := GamePhase.preRoll }

/-- An army-tie state: players 0 and 1 both have three played knights and
player 0 is the incumbent holder. -/
def armyTieState : GameState :=
  { mkBaseState
      [ { createPlayer "p1" "A" PlayerColor.red with playedKnights := 3 },
        { createPlayer "p2" "B" PlayerColor.blue with playedKnights := 3 } ] with
    largestArmyPlayer := some 0
    largestArmySize := 3 }

-- ======================================================================
-- Credit-event view of production, used to relate the delta fold of
-- produceResources to the spec sum
-- ======================================================================

/-- The credit events (player, resource, amount) one producing hex
generates, in source order. -/
def vertexCredits (s : GameState) (r : ResourceType) :
    List VertexId → List (Nat × ResourceType × Int)
  | [] => []
  | v :: vs =>
    match alookup s.vertexBuildings v with
    | some b =>
      (b.playerIndex, r, if b.type = BuildingType.city then 2 else 1)
        :: vertexCredits s r vs
    | none => vertexCredits s r vs

/-- The credit events one tile generates on a roll. -/
def hexTileCredits (s : GameState) (diceTotal : Nat) (tile : HexTile) :
    List (Nat × ResourceType × Int) :=
  if tile.numberToken ≠ some diceTotal then []
  else if tile.coord = s.robberHex then []
  else
    match TERRAIN_TO_RESOURCE tile.terrain with
    | none => []
    | some r => vertexCredits s r ((alookup s.boardGraph.hexToVertices tile.coord).getD [])

/-- Sequential application of credit events to the delta list. -/
def applyCredits (ds : List ResourceBundle) :
    List (Nat × ResourceType × Int) → List ResourceBundle
  | [] => ds
  | c :: cs => applyCredits (addAt ds c.1 c.2.1 c.2.2) cs

/-- All credit events of one production pass, in source order. -/
def allCredits (s : GameState) (t : Nat) : List HexTile → List (Nat × ResourceType × Int)
  | [] => []
  | tile :: rest => hexTileCredits s t tile ++ allCredits s t rest

/-- Total amount the credit list owes player `i` in resource `r`. -/
def creditSum : List (Nat × ResourceType × Int) → Nat → ResourceType → Int
  | [], _, _ => 0
  | c :: cs, i, r => (if c.1 = i ∧ c.2.1 = r then c.2.2 else 0) + creditSum cs i r

-- ======================================================================
-- Theorems.  Utility lemmas about association lists come first.
-- ======================================================================

section Lemmas

variable {κ β : Type} [DecidableEq κ]

theorem alookup_cons (k' : κ) (v' : β) (rest : List (κ × β)) (k : κ) :
    alookup ((k', v') :: rest) k = if k' = k then some v' else alookup rest k := rfl

theorem alookup_eq_some_mem {m : List (κ × β)} {k : κ} {v : β}
    (h : alookup m k = some v) : (k, v) ∈ m := by
  induction m with
  | nil => simp [alookup] at h
  | cons p rest ih =>
    obtain ⟨k', v'⟩ := p
    rw [alookup_cons] at h
    by_cases hk : k' = k
    · rw [if_pos hk] at h
      injection h with h
      subst hk
      subst h
      exact List.mem_cons_self _ _
    · rw [if_neg hk] at h
      exact List.mem_cons_of_mem _ (ih h)

theorem alookup_eq_none_iff {m : List (κ × β)} {k : κ} :
    alookup m k = none ↔ k ∉ akeys m := by
  induction m with
  | nil => simp [alookup, akeys]
  | cons p rest ih =>
    obtain ⟨k', v'⟩ := p
    by_cases hk : k' = k
    · subst hk
      simp [alookup_cons, akeys]
    · simp [alookup_cons, hk, akeys, ih, Ne.symm hk]

theorem mem_nodup_alookup {m : List (κ × β)} {k : κ} {v : β}
    (hm : (k, v) ∈ m) (hn : (akeys m).Nodup) : alookup m k = some v := by
  induction m with
  | nil => cases hm
  | cons p rest ih =>
    obtain ⟨k', v'⟩ := p
    simp only [akeys, List.map_cons, List.nodup_cons] at hn
    rcases List.mem_cons.mp hm with h | h
    · injection h with h1 h2
      subst h1
      subst h2
      simp [alookup_cons]
    · have hk : k' ≠ k := by
        intro he
        subst he
        exact hn.1 (List.mem_map.mpr ⟨(k', v), h, rfl⟩)
      rw [alookup_cons, if_neg hk]
      exact ih h hn.2

theorem alookup_map_overwrite {m : List (κ × β)} {k : κ} {v : β}
    (hs : (alookup m k).isSome) :
    alookup (m.map (fun p => if p.1 = k then (k, v) else p)) k = some v := by
  induction m with
  | nil => simp [alookup] at hs
  | cons p rest ih =>
    obtain ⟨k', v'⟩ := p
    by_cases hk : k' = k
    · simp [alookup_cons, hk]
    · simp only [List.map_cons]
      rw [if_neg hk]
      rw [alookup_cons, if_neg hk]
      rw [alookup_cons, if_neg hk] at hs
      exact ih hs

theorem alookup_map_overwrite_ne {m : List (κ × β)} {k k' : κ} {v : β} (h : k' ≠ k) :
    alookup (m.map (fun p => if p.1 = k then (k, v) else p)) k' = alookup m k' := by
  induction m with
  | nil => rfl
  | cons p rest ih =>
    obtain ⟨k0, v0⟩ := p
    by_cases hk : k0 = k
    · subst hk
      simp only [List.map_cons, if_pos rfl]
      rw [alookup_cons, alookup_cons, if_neg (Ne.symm h), if_neg]
      · exact ih
      · intro he
        exact h (he.symm)
    · simp only [List.map_cons]
      rw [if_neg hk]
      rw [alookup_cons, alookup_cons]
      by_cases h0 : k0 = k'
      · simp [h0]
      · rw [if_neg h0, if_neg h0]
        exact ih

theorem alookup_append_single {m : List (κ × β)} {k : κ} {v : β}
    (h : alookup m k = none) : alookup (m ++ [(k, v)]) k = some v := by
  induction m with
  | nil => simp [alookup_cons]
  | cons p rest ih =>
    obtain ⟨k', v'⟩ := p
    rw [alookup_cons] at h
    by_cases hk : k' = k
    · rw [if_pos hk] at h
      cases h
    · rw [if_neg hk] at h
      rw [List.cons_append, alookup_cons, if_neg hk]
      exact ih h

theorem alookup_append_single_ne {m : List (κ × β)} {k k' : κ} {v : β} (h : k' ≠ k) :
    alookup (m ++ [(k, v)]) k' = alookup m k' := by
  induction m with
  | nil => simp [alookup, alookup_cons, Ne.symm h]
  | cons p rest ih =>
    obtain ⟨k0, v0⟩ := p
    rw [List.cons_append, alookup_cons, alookup_cons]
    by_cases h0 : k0 = k'
    · simp [h0]
    · rw [if_neg h0, if_neg h0]
      exact ih

theorem alookup_recordSet_self {m : List (κ × β)} {k : κ} {v : β} :
    alookup (recordSet m k v) k = some v := by
  unfold recordSet
  split
  · next hs => exact alookup_map_overwrite hs
  · next hs =>
    apply alookup_append_single
    cases he : alookup m k
    · rfl
    · rw [he] at hs
      exact absurd rfl hs

theorem alookup_recordSet_ne {m : List (κ × β)} {k k' : κ} {v : β} (h : k' ≠ k) :
    alookup (recordSet m k v) k' = alookup m k' := by
  unfold recordSet
  split
  · exact alookup_map_overwrite_ne h
  · exact alookup_append_single_ne h

theorem isSome_alookup_recordSet {m : List (κ × β)} {k : κ} {v : β}
    (hs : (alookup m k).isSome) (k' : κ) :
    (alookup (recordSet m k v) k').isSome = (alookup m k').isSome := by
  by_cases h : k' = k
  · subst h
    rw [alookup_recordSet_self]
    rw [Option.isSome_iff_exists] at hs
    rcases hs with ⟨w, hw⟩
    rw [hw]
    rfl
  · rw [alookup_recordSet_ne h]

theorem akeys_map_overwrite (m : List (κ × β)) (k : κ) (v : β) :
    akeys (m.map (fun p => if p.1 = k then (k, v) else p)) = akeys m := by
  induction m with
  | nil => rfl
  | cons p rest ih =>
    obtain ⟨k', v'⟩ := p
    by_cases hk : k' = k
    · subst hk
      simp only [akeys, List.map_cons] at ih ⊢
      simp [ih]
    · simp only [akeys, List.map_cons] at ih ⊢
      rw [if_neg hk]
      rw [ih]

theorem akeys_recordSet_of_none {m : List (κ × β)} {k : κ} {v : β}
    (h : alookup m k = none) : akeys (recordSet m k v) = akeys m ++ [k] := by
  unfold recordSet
  rw [h]
  simp [akeys]

theorem akeys_recordSet_of_isSome {m : List (κ × β)} {k : κ} {v : β}
    (h : (alookup m k).isSome) : akeys (recordSet m k v) = akeys m := by
  unfold recordSet
  rw [if_pos h]
  exact akeys_map_overwrite m k v

theorem nodup_recordSet {m : List (κ × β)} {k : κ} {v : β}
    (hn : (akeys m).Nodup) : (akeys (recordSet m k v)).Nodup := by
  by_cases h : (alookup m k).isSome
  · rw [akeys_recordSet_of_isSome h]
    exact hn
  · have hnone : alookup m k = none := by
      cases he : alookup m k
      · rfl
      · rw [he] at h
        exact absurd rfl h
    rw [akeys_recordSet_of_none hnone]
    rw [List.nodup_append]
    refine ⟨hn, List.nodup_singleton k, ?_⟩
    intro x hx hx'
    rcases List.mem_singleton.mp hx' with rfl
    exact (alookup_eq_none_iff.mp hnone) hx

theorem alookup_isSome_of_mem_keys {m : List (κ × β)} {k : κ}
    (h : k ∈ akeys m) : (alookup m k).isSome := by
  cases he : alookup m k
  · exact absurd h (alookup_eq_none_iff.mp he)
  · rfl

/-- A string starting with a non-empty string is non-empty. -/
theorem str_append_ne_empty {a : String} (b : String) (h : a ≠ "") : a ++ b ≠ "" := by
  intro hc
  apply h
  cases a with
  | mk da =>
    cases b with
    | mk db =>
      have : da ++ db = [] := congrArg String.data hc
      rcases List.append_eq_nil.mp this with ⟨h1, _⟩
      simp [h1]

end Lemmas

-- ======================================================================
-- Concrete facts about the built board graph
-- ======================================================================

set_option maxRecDepth 4000

/-- Every vertex of the built board has a `vertexToHexes` entry. -/
theorem bb_vertexToHexes_isSome :
    ∀ v ∈ buildBoardGraph.vertices, (alookup buildBoardGraph.vertexToHexes v).isSome := by
  decide

/-- Every edge of the built board has an `edgeToVertices` entry. -/
theorem bb_edgeToVertices_isSome :
    ∀ e ∈ buildBoardGraph.edges, (alookup buildBoardGraph.edgeToVertices e).isSome := by
  decide

/-- Vertex adjacency of the built board is symmetric. -/
theorem bb_adj_symm :
    ∀ p ∈ buildBoardGraph.vertexToVertices, ∀ w ∈ p.2,
      p.1 ∈ (alookup buildBoardGraph.vertexToVertices w).getD [] := by
  decide

/-- No vertex of the built board is adjacent to itself. -/
theorem bb_adj_irrefl :
    ∀ p ∈ buildBoardGraph.vertexToVertices, p.1 ∉ p.2 := by
  decide

/-- The adjacency list of a vertex in the built board is the entry of its
association list, usable through `getD`. -/
theorem bb_adj_lookup {v : VertexId} {w : VertexId}
    (h : w ∈ (alookup buildBoardGraph.vertexToVertices v).getD []) :
    v ∈ (alookup buildBoardGraph.vertexToVertices w).getD [] := by
  cases he : alookup buildBoardGraph.vertexToVertices v with
  | none => rw [he] at h; cases h
  | some l =>
    rw [he] at h
    exact bb_adj_symm (v, l) (alookup_eq_some_mem he) w h

-- ======================================================================
-- C2: shape of the built board graph
-- ======================================================================

/-- C2: the board graph built by `buildBoardGraph` contains exactly 19
hexes, 54 vertices and 72 edges; the two endpoint vertices of every edge
list each other as adjacent vertices; every vertex is adjacent to 1–3
hexes, 2–3 vertices and 2–3 edges. -/
theorem C2_board_graph_shape :
    buildBoardGraph.hexes.length = 19
    ∧ buildBoardGraph.vertices.length = 54
    ∧ buildBoardGraph.edges.length = 72
    ∧ (∀ p ∈ buildBoardGraph.edgeToVertices,
        p.2.2 ∈ (alookup buildBoardGraph.vertexToVertices p.2.1).getD []
          ∧ p.2.1 ∈ (alookup buildBoardGraph.vertexToVertices p.2.2).getD [])
    ∧ (∀ p ∈ buildBoardGraph.vertexToHexes, 1 ≤ p.2.length ∧ p.2.length ≤ 3)
    ∧ (∀ p ∈ buildBoardGraph.vertexToVertices, 2 ≤ p.2.length ∧ p.2.length ≤ 3)
    ∧ (∀ p ∈ buildBoardGraph.vertexToEdges, 2 ≤ p.2.length ∧ p.2.length ≤ 3) := by
  decide

-- ======================================================================
-- C3: determinism of initialization
-- ======================================================================

/-- C3: with a configured seed, two runs of `initializeGame` agree on the
terrain/token layout, the ports, the development-card deck order, the
seating order, and the robber start, whatever entropy the fallback
random-number draw would have produced in either run. -/
theorem C3_initialize_deterministic (cfg : GameConfig) (sd e1 e2 : Nat)
    (h : cfg.seed = some sd) :
    (initializeGame cfg e1).hexTiles = (initializeGame cfg e2).hexTiles
    ∧ (initializeGame cfg e1).ports = (initializeGame cfg e2).ports
    ∧ (initializeGame cfg e1).devCardDeck = (initializeGame cfg e2).devCardDeck
    ∧ (initializeGame cfg e1).players = (initializeGame cfg e2).players
    ∧ (initializeGame cfg e1).robberHex = (initializeGame cfg e2).robberHex := by
  have he : initializeGame cfg e1 = initializeGame cfg e2 := by
    unfold initializeGame
    rw [h]
    rfl
  rw [he]
  exact ⟨rfl, rfl, rfl, rfl, rfl⟩

theorem C3_witness :
    (initializeGame testConfig 0).hexTiles = (initializeGame testConfig 99).hexTiles
    ∧ (initializeGame testConfig 0).ports = (initializeGame testConfig 99).ports
    ∧ (initializeGame testConfig 0).devCardDeck
        = (initializeGame testConfig 99).devCardDeck
    ∧ (initializeGame testConfig 0).players = (initializeGame testConfig 99).players
    ∧ (initializeGame testConfig 0).robberHex
        = (initializeGame testConfig 99).robberHex :=
  C3_initialize_deterministic testConfig 42 0 99 rfl

-- ======================================================================
-- C1: atomicity and failure shape of applyAction
-- ======================================================================

set_option maxHeartbeats 2000000 in
/-- No validator ever produces the empty string as an error. -/
theorem validateAction_ne_some_empty (s : GameState) (a : GameAction) :
    validateAction s a ≠ some "" := by
  cases a <;>
    simp only [validateAction, validateRollDice, validateBuildSettlement,
      validateBuildRoad, validateBuildCity, validateBuyDevCard, validateKnight,
      validateRoadBuildingCard, validateYearOfPlenty, validateMonopoly,
      validateMoveRobber, validateStealResource, validateDiscard, validateTradeBank,
      validateTradeOffer, validateTradeAccept, validateTradeReject,
      validateTradeConfirm, validateTradeCancel, validateEndTurn,
      validateSetupSettlement, validateSetupRoad] <;>
    repeat' split
  all_goals intro h
  all_goals first
    | exact Option.noConfusion h
    | (injection h with h
       first
        | exact absurd h (by decide)
        | exact str_append_ne_empty _ (str_append_ne_empty _
            (str_append_ne_empty _ (by decide))) h
        | exact str_append_ne_empty _ (str_append_ne_empty _ (str_append_ne_empty _
            (str_append_ne_empty _ (str_append_ne_empty _ (str_append_ne_empty _
              (by decide)))))) h)

/-- C1: when validation fails, `applyAction` returns `valid := false`, the
same non-empty error string, the untouched input state, and no events;
when validation succeeds, the dispatched apply handler runs and reports
`valid := true` with no error: the successor state is produced in one
piece by that handler. -/
theorem C1_apply_atomicity (s : GameState) (a : GameAction) (now : Nat) :
    (∀ e, validateAction s a = some e →
        applyAction s a now = ⟨false, some e, s, []⟩ ∧ e ≠ "")
    ∧ (validateAction s a = none →
        (applyAction s a now).valid = true ∧ (applyAction s a now).error = none) := by
  constructor
  · intro e he
    refine ⟨?_, ?_⟩
    · unfold applyAction
      rw [he]
    · intro hemp
      subst hemp
      exact validateAction_ne_some_empty s a he
  · intro hn
    unfold applyAction
    rw [hn]
    cases a <;> exact ⟨rfl, rfl⟩

theorem C1_witness :
    applyAction initState (GameAction.rollDice 1) 0
        = ⟨false, some "Not your turn", initState, []⟩
    ∧ (applyAction initState (GameAction.setupPlaceSettlement 0 ⟨0, 0, VDir.N⟩) 0).valid
        = true :=
  ⟨((C1_apply_atomicity initState (GameAction.rollDice 1) 0).1 "Not your turn"
      (by decide)).1,
   ((C1_apply_atomicity initState (GameAction.setupPlaceSettlement 0 ⟨0, 0, VDir.N⟩) 0).2
      (by decide)).1⟩

-- ======================================================================
-- C8: seven-roll discard bookkeeping
-- ======================================================================

/-- C8: when the dice total seven, exactly the players holding more than
seven cards are listed for discarding (so a hand of seven or fewer is
never listed) and the phase becomes Discard, or MoveRobber at once when
nobody is listed; a listed player's discard is accepted exactly when it
discards `⌊hand/2⌋` cards the player actually holds; a discard removes
the player from the list and, once the list is empty, the phase becomes
MoveRobber. -/
theorem playerAt_set_lastDiceRoll (s : GameState) (x : Option (Nat × Nat)) (i : Nat) :
    playerAt { s with lastDiceRoll := x } i = playerAt s i := rfl

theorem C8_seven_roll_discard (s : GameState) (pi : Nat) (res : ResourceBundle)
    (now : Nat) :
    ((diceRollOf s now).1 + (diceRollOf s now).2 = 7 →
      (((List.range s.players.length).filter (fun i =>
          totalResources (playerAt s i).resources > (7 : Int))) ≠ [] →
        (applyRollDice s pi now).state.playersNeedingToDiscard
            = (List.range s.players.length).filter (fun i =>
                totalResources (playerAt s i).resources > (7 : Int))
          ∧ (applyRollDice s pi now).state.phase = GamePhase.discard)
      ∧ (((List.range s.players.length).filter (fun i =>
          totalResources (playerAt s i).resources > (7 : Int))) = [] →
        (applyRollDice s pi now).state.phase = GamePhase.moveRobber))
    ∧ (s.phase = GamePhase.discard → pi ∈ s.playersNeedingToDiscard →
        (validateDiscard s pi res = none ↔
          totalResources res
              = (totalResources (playerAt s pi).resources).fdiv 2
            ∧ hasResources (playerAt s pi).resources res = true))
    ∧ ((applyDiscard s pi res now).state.playersNeedingToDiscard
          = s.playersNeedingToDiscard.filter (· ≠ pi)
        ∧ (s.playersNeedingToDiscard.filter (· ≠ pi) = [] →
            (applyDiscard s pi res now).state.phase = GamePhase.moveRobber)) := by
  refine ⟨?_, ?_, ?_⟩
  · intro h7
    obtain ⟨d, hd⟩ : ∃ d, diceRollOf s now = d := ⟨_, rfl⟩
    rw [hd] at h7
    unfold applyRollDice pushLog
    rw [hd]
    simp only [playerAt_set_lastDiceRoll, MAX_HAND_SIZE_BEFORE_DISCARD]
    rw [if_pos h7]
    constructor
    · intro hne
      rw [if_pos hne]
      exact ⟨rfl, rfl⟩
    · intro hemp
      rw [if_neg (by simp [hemp])]
  · intro hph hmem
    simp only [validateDiscard, hph]
    rw [if_neg (by simp), if_neg (by simp [hmem])]
    constructor
    · intro h
      split at h
      · cases h
      · next hne =>
        split at h
        · cases h
        · next hhas =>
          exact ⟨by omega, not_not.mp hhas⟩
    · intro ⟨h1, h2⟩
      rw [if_neg (by omega), if_neg (by simp [h2])]
  · constructor
    · simp only [applyDiscard, pushLog]
      split <;> rfl
    · intro hemp
      simp only [applyDiscard, pushLog, hemp, List.length_nil, if_true]

theorem C8_witness :
    (diceRollOf preRollState 2).1 + (diceRollOf preRollState 2).2 = 7
    ∧ (applyRollDice preRollState 0 2).state.playersNeedingToDiscard = [0]
    ∧ (applyRollDice preRollState 0 2).state.phase = GamePhase.discard
    ∧ validateDiscard discardState 0 ⟨4, 0, 0, 0, 0⟩ = none
    ∧ (applyDiscard discardState 0 ⟨4, 0, 0, 0, 0⟩ 0).state.phase
        = GamePhase.moveRobber := by
  have h7 : (diceRollOf preRollState 2).1 + (diceRollOf preRollState 2).2 = 7 := by decide
  have hfil : ((List.range preRollState.players.length).filter (fun i =>
      totalResources (playerAt preRollState i).resources > (7 : Int))) = [0] := by decide
  have hlist := ((C8_seven_roll_discard preRollState 0 ⟨4, 0, 0, 0, 0⟩ 2).1 h7).1
    (by rw [hfil]; exact List.cons_ne_nil 0 [])
  have hval := ((C8_seven_roll_discard discardState 0 ⟨4, 0, 0, 0, 0⟩ 0).2.1
    (by decide) (by decide)).mpr (by decide)
  have hmv := ((C8_seven_roll_discard discardState 0 ⟨4, 0, 0, 0, 0⟩ 0).2.2).2 (by decide)
  exact ⟨h7, by rw [hlist.1, hfil], by rw [hlist.2], hval, hmv⟩

-- ======================================================================
-- C5: longest-road computation on the spec's example configurations
-- ======================================================================

/-- C5: on the standard board, an uninterrupted 5-edge chain of player 0
yields longest-road length 5, and a 3-edge chain with an opponent
building at an interior vertex yields length 2; in both configurations
the DFS result coincides with the declarative maximum over all
edge-simple chained paths in the player's road subgraph in which a
vertex holding an opponent building may end a path but not be traversed
through. -/
theorem C5_longest_road_paths :
    calculateLongestRoad chainState5 0 = 5
    ∧ specLongestRoad chainState5 0 = 5
    ∧ calculateLongestRoad chainState3 0 = 2
    ∧ specLongestRoad chainState3 0 = 2 :=
  ⟨by decide, by decide, by decide, by decide⟩

end FrontierHex
